import Mathlib

/-!
# datalab web client: `webapp/src/server_fetch_utils.js`

A shallow embedding of the fetch helpers of the datalab web application and
of the endpoint operations built on them, followed by theorems about their
behaviour.

Modelling conventions.

* JavaScript values are the inductive type `JSVal`.  Numbers are restricted to
  the safe integers, those of absolute value below `2^53`, which JavaScript
  holds exactly and prints in plain decimal; functions, symbols and host
  objects are not represented.
* A computation that may call `store.commit`, `alert`, `console.*` or `fetch`
  and that either returns or throws is a value of `Run α`: the list of
  effects in the order they happen, and the result.  A promise is identified
  with the `Run JSVal` that settles it: `Except.ok v` is "resolved with `v`",
  `Except.error e` is "rejected with `e`".  `p.then(f)` is `p >>= f` and
  `p.catch(g)` is `Run.catchWith p g`.
* Everything imported from outside the file is a field of `Env`: the constants
  of `@/resources.js`, the platform function `JSON.parse` and the behaviour of
  the network (`fetch`).
* The store is written through `store.commit`, an effect.  The two operations
  that read `store.state` take the object they read as a parameter.
* An operation that builds a promise chain without returning it (`saveItem`,
  `deleteBlock`, ...) returns `undefined`; the effects of the chain are in its
  trace (`Run.detach`).
-/

set_option autoImplicit false

/-! ## JavaScript values -/

/-- A safe integer: an integer of absolute value at most `2^53 - 1`
(`Number.MAX_SAFE_INTEGER`). -/
structure SafeInt where
  val : Int
  safe : val.natAbs < 9007199254740992

/-- The number `100`. -/
def SafeInt.hundred : SafeInt := ⟨100, by decide⟩

/-- The number `50`. -/
def SafeInt.fifty : SafeInt := ⟨50, by decide⟩

/-- A JavaScript value.  `error name message` is an `Error` object. -/
inductive JSVal where
  | undefined
  | null
  | bool (b : Bool)
  | num (n : SafeInt)
  | str (s : String)
  | arr (items : List JSVal)
  | obj (fields : List (String × JSVal))
  | error (name : String) (message : String)

namespace JSVal

/-- Truthiness (`ToBoolean`): `undefined`, `null`, `false`, `0` and `""` are
falsy, everything else is truthy. -/
def truthy : JSVal → Bool
  | undefined => false
  | null => false
  | bool b => b
  | num n => n.val != 0
  | str s => s != ""
  | _ => true

/-- Whether the value is `null` or `undefined` (`v == null`). -/
def isNullish : JSVal → Bool
  | undefined => true
  | null => true
  | _ => false

/-- Strict comparison with a string literal, `v === "s"`. -/
def isString (v : JSVal) (s : String) : Bool :=
  match v with
  | str t => t == s
  | _ => false

mutual
/-- String conversion (`String(v)`, template literals, `+` with a string).
Plain objects print as `[object Object]`, arrays as their elements joined by
commas. -/
def toJSString : JSVal → String
  | undefined => "undefined"
  | null => "null"
  | bool b => if b then "true" else "false"
  | num n => toString n.val
  | str s => s
  | arr items => joinItems items
  | obj _ => "[object Object]"
  | error name message =>
    if name = "" then message
    else if message = "" then name
    else name ++ ": " ++ message
termination_by structural v => v
/-- The body of `Array.prototype.join(",")`: `null` and `undefined` elements
contribute the empty string. -/
def joinItems : List JSVal → String
  | [] => ""
  | v :: rest =>
    (match v with
     | undefined => ""
     | null => ""
     | v => toJSString v) ++ (match rest with | [] => "" | _ => ",") ++ joinItems rest
termination_by structural l => l
end

/-- The `TypeError` thrown when a property of `null` or `undefined` is read. -/
def typeError (v : JSVal) (key : String) : JSVal :=
  error "TypeError"
    ("Cannot read properties of " ++ toJSString v ++ " (reading \x27" ++ key ++ "\x27)")

/-- Property read `v.key`.  Throws on `null` and `undefined`; on a plain object
it is the own property or `undefined`.  Only keys that are not inherited from
a prototype are ever read by the source, so every other value yields
`undefined`. -/
def prop (v : JSVal) (key : String) : Except JSVal JSVal :=
  match v with
  | undefined => .error (typeError undefined key)
  | null => .error (typeError null key)
  | obj fields => .ok ((fields.lookup key).getD undefined)
  | error name message =>
    if key = "message" then .ok (str message)
    else if key = "name" then .ok (str name)
    else .ok undefined
  | _ => .ok undefined

/-- Property read on a value known not to be `null` or `undefined`. -/
def field (v : JSVal) (key : String) : JSVal :=
  match v.prop key with
  | .ok w => w
  | .error _ => undefined

/-- Assignment `o[key] = v` on the property list of an object: an existing key
keeps its position, a new key goes last. -/
def setField (key : String) (v : JSVal) : List (String × JSVal) → List (String × JSVal)
  | [] => [(key, v)]
  | (k, w) :: rest => if k = key then (k, v) :: rest else (k, w) :: setField key v rest

/-- Object spread `{...base, ...extra}` on property lists. -/
def spread (base extra : List (String × JSVal)) : List (String × JSVal) :=
  extra.foldl (fun acc kv => setField kv.1 kv.2 acc) base

/-- Statement `delete o.key` on the property list of an object. -/
def deleteField (key : String) (fields : List (String × JSVal)) : List (String × JSVal) :=
  fields.filter (fun kv => kv.1 != key)

/-- Statement `delete v.key`: a `TypeError` when `v` is `null` or `undefined`;
on an object the own property is removed; any other value has no such own
property and is left as it is. -/
def deleteProp (key : String) (v : JSVal) : Except JSVal JSVal :=
  match v with
  | undefined => .error (error "TypeError" "Cannot convert undefined or null to object")
  | null => .error (error "TypeError" "Cannot convert undefined or null to object")
  | obj fields => .ok (obj (deleteField key fields))
  | w => .ok w

/-- Call `new Error(message)`: the message is converted to a string, and is
empty when the argument is `undefined`. -/
def newError (message : JSVal) : JSVal :=
  match message with
  | undefined => error "Error" ""
  | m => error "Error" (toJSString m)

end JSVal

open JSVal

/-! ## Requests, responses and effects -/

/-- The second argument of `fetch`.  `body` is the value that was handed to
`JSON.stringify`; `none` when the request has no `body` key. -/
structure RequestOptions where
  method : String
  headers : List (String × String)
  body : Option JSVal
  credentials : String

/-- A request target: the text the URL was built from and the parameters
added afterwards with `searchParams.append`, in order.  A target given as a
plain string has no appended parameters.  `API_URL` is assumed to be an
absolute URL, so that `new URL` does not throw. -/
structure URL where
  href : String
  searchParams : List (String × String)

/-- The part of a `Response` that the source reads. -/
structure Response where
  ok : Bool
  statusText : String
  text : String

/-- An observable effect. -/
inductive Event where
  | fetch (url : URL) (options : RequestOptions)
  | commit (mutation : String) (payload : JSVal)
  | alert (message : String)
  | console (level : String)

/-- What the file imports. -/
structure Env where
  API_URL : String
  API_TOKEN : Option String
  SAMPLE_TABLE_TYPES : List String
  INVENTORY_TABLE_TYPES : List String
  EQUIPMENT_TABLE_TYPES : List String
  jsonParse : String → Except JSVal JSVal
  fetch : URL → RequestOptions → Except JSVal Response

/-- A computation with effects: the effects in order and the value returned
(`ok`) or thrown (`error`). -/
structure Run (α : Type) where
  trace : List Event
  result : Except JSVal α

namespace Run

/-- Return a value without effects. -/
def ret {α : Type} (a : α) : Run α := ⟨[], .ok a⟩

/-- Throw, or reject with, a value. -/
def reject {α : Type} (e : JSVal) : Run α := ⟨[], .error e⟩

/-- Sequencing; also `p.then(f)`. -/
def andThen {α β : Type} (p : Run α) (f : α → Run β) : Run β :=
  match p.result with
  | .ok a => ⟨p.trace ++ (f a).trace, (f a).result⟩
  | .error e => ⟨p.trace, .error e⟩

/-- Handling of a rejection, `p.catch(g)`. -/
def catchWith {α : Type} (p : Run α) (g : JSVal → Run α) : Run α :=
  match p.result with
  | .ok a => ⟨p.trace, .ok a⟩
  | .error e => ⟨p.trace ++ (g e).trace, (g e).result⟩

instance : Monad Run where
  pure := ret
  bind := andThen

/-- A single effect. -/
def emit (e : Event) : Run Unit := ⟨[e], .ok ()⟩

/-- An expression that may throw. -/
def eval {α : Type} (x : Except JSVal α) : Run α := ⟨[], x⟩

/-- Call `store.commit(mutation, payload)`. -/
def commit (mutation : String) (payload : JSVal) : Run Unit := emit (.commit mutation payload)

/-- Call `alert(message)`. -/
def alert (message : String) : Run Unit := emit (.alert message)

/-- A call of `console.log`, `console.warn` or `console.error`. -/
def console (level : String) : Run Unit := emit (.console level)

/-- The mutations committed, in order. -/
def commits {α : Type} (p : Run α) : List (String × JSVal) :=
  p.trace.filterMap (fun e => match e with
    | .commit m v => some (m, v)
    | _ => none)

/-- The requests dispatched, in order. -/
def requests {α : Type} (p : Run α) : List (URL × RequestOptions) :=
  p.trace.filterMap (fun e => match e with
    | .fetch u o => some (u, o)
    | _ => none)

end Run

/-! ## The fetch wrappers -/

/-- Assignment `headers[key] = value`. -/
def setHeader (key value : String) : List (String × String) → List (String × String)
  | [] => [(key, value)]
  | (k, w) :: rest => if k = key then (k, value) :: rest else (k, w) :: setHeader key value rest

/-- Source: `construct_headers(additional_headers = null)`. -/
def construct_headers (env : Env) (additional_headers : Option (List (String × String))) :
    List (String × String) :=
  let headers := match additional_headers with
    | some h => h
    | none => []
  match env.API_TOKEN with
  | some token => if token != "" then setHeader "Authorization" token headers else headers
  | none => headers

/-- Source: `handleResponse(response)`. -/
def handleResponse (env : Env) (response : Response) : Run JSVal := do
  Run.console "log"
  Run.console "log"
  Run.console "log"
  -- `text && JSON.parse(text)`
  let data ← if response.text = "" then pure (str response.text)
    else Run.eval (env.jsonParse response.text)
  if !response.ok then
    -- `(data && data.message) || response.statusText`
    let message ← if data.truthy then Run.eval (data.prop "message") else pure data
    let error := if message.truthy then message else str response.statusText
    Run.reject error
  else
    pure data

/-- Call `fetch(url, requestOptions).then(handleResponse)`. -/
def dispatch (env : Env) (url : URL) (requestOptions : RequestOptions) : Run JSVal := do
  Run.emit (.fetch url requestOptions)
  let response ← Run.eval (env.fetch url requestOptions)
  handleResponse env response

/-- Source: `fetch_get(url)`. -/
def fetch_get (env : Env) (url : URL) : Run JSVal :=
  dispatch env url
    { method := "GET", headers := construct_headers env none, body := none,
      credentials := "include" }

/-- Source: `fetch_post(url, body)`. -/
def fetch_post (env : Env) (url : URL) (body : JSVal) : Run JSVal :=
  dispatch env url
    { method := "POST",
      headers := construct_headers env (some [("Content-Type", "application/json")]),
      body := some body, credentials := "include" }

/-- Source: `fetch_patch(url, body)`. -/
def fetch_patch (env : Env) (url : URL) (body : JSVal) : Run JSVal :=
  dispatch env url
    { method := "PATCH",
      headers := construct_headers env (some [("Content-Type", "application/json")]),
      body := some body, credentials := "include" }

/-- Source: `fetch_put(url, body)`. -/
def fetch_put (env : Env) (url : URL) (body : JSVal) : Run JSVal :=
  dispatch env url
    { method := "PUT",
      headers := construct_headers env (some [("Content-Type", "application/json")]),
      body := some body, credentials := "include" }

/-- Source: `fetch_delete(url, body)`. -/
def fetch_delete (env : Env) (url : URL) (body : JSVal) : Run JSVal :=
  dispatch env url
    { method := "DELETE",
      headers := construct_headers env (some [("Content-Type", "application/json")]),
      body := some body, credentials := "include" }

/-- A target given as a string. -/
def URL.ofString (s : String) : URL := ⟨s, []⟩

/-- Default value of a parameter: used when the argument is `undefined`. -/
def orDefault (v d : JSVal) : JSVal :=
  match v with
  | .undefined => d
  | w => w

/-- Call `table.includes(v)` on an array of strings. -/
def includes (table : List String) (v : JSVal) : Bool :=
  match v with
  | .str s => table.contains s
  | _ => false

/-! ## Endpoint operations -/

/-- The request body of `createNewItem`: the object literal passed to
`fetch_post`, with the defaults of the parameters applied. -/
def newSampleBody (item_id type date name startingCollection : JSVal)
    (startingData : Option (List (String × JSVal))) (copyFrom generateIDAutomatically : JSVal) :
    JSVal :=
  obj [("copy_from_item_id", orDefault copyFrom null),
       ("generate_id_automatically", orDefault generateIDAutomatically (bool false)),
       ("new_sample_data",
         obj (spread
           [("item_id", item_id), ("date", date), ("name", name), ("type", type),
            ("collections", orDefault startingCollection null)]
           (startingData.getD [])))]

/-- Source: `createNewItem(item_id, type, date, name, startingCollection = null,
startingData = {}, copyFrom = null, generateIDAutomatically = false)`.
`startingData` is an object, `none` when the argument is omitted. -/
def createNewItem (env : Env) (item_id type date name startingCollection : JSVal)
    (startingData : Option (List (String × JSVal))) (copyFrom generateIDAutomatically : JSVal) :
    Run JSVal :=
  fetch_post env (URL.ofString (env.API_URL ++ "/new-sample/"))
    (newSampleBody item_id type date name startingCollection startingData copyFrom
      generateIDAutomatically)
  >>= fun response_json => do
    Run.console "log"
    let sample_list_entry ← Run.eval (response_json.prop "sample_list_entry")
    Run.console "log"
    let entry_type ← Run.eval (sample_list_entry.prop "type")
    Run.console "log"
    if includes env.SAMPLE_TABLE_TYPES entry_type then
      Run.commit "prependToSampleList" sample_list_entry
    if includes env.INVENTORY_TABLE_TYPES entry_type then
      Run.commit "prependToStartingMaterialList" sample_list_entry
    if includes env.EQUIPMENT_TABLE_TYPES entry_type then
      Run.commit "prependToEquipmentList" sample_list_entry
    pure (str "success")

/-- Source: `getSampleList()`. -/
def getSampleList (env : Env) : Run JSVal :=
  (fetch_get env (URL.ofString (env.API_URL ++ "/samples/"))
    >>= fun response_json => do
      Run.console "log"
      let samples ← Run.eval (response_json.prop "samples")
      Run.commit "setSampleList" samples
      pure undefined).catchWith fun error =>
    if error.isString "UNAUTHORIZED" then do
      Run.commit "setSampleList" (arr [])
      pure undefined
    else do
      Run.console "error"
      Run.console "error"
      Run.reject error

/-- Source: `getCollectionSampleList(collection_id)`. -/
def getCollectionSampleList (env : Env) (collection_id : JSVal) : Run JSVal := do
  Run.console "log"
  (fetch_get env (URL.ofString (env.API_URL ++ "/collections/" ++ toJSString collection_id))
    >>= fun response_json => do
      Run.commit "setCollectionSampleList" response_json
      pure undefined).catchWith fun error =>
    if error.isString "UNAUTHORIZED" then do
      Run.commit "setCollectionSampleList" (arr [])
      pure undefined
    else do
      Run.console "error"
      Run.console "error"
      Run.reject error

/-- Source: `getCollectionList()`. -/
def getCollectionList (env : Env) : Run JSVal :=
  (fetch_get env (URL.ofString (env.API_URL ++ "/collections"))
    >>= fun response_json => do
      let data ← Run.eval (response_json.prop "data")
      Run.commit "setCollectionList" data
      pure undefined).catchWith fun error =>
    if error.isString "UNAUTHORIZED" then do
      Run.commit "setCollectionList" (arr [])
      pure undefined
    else do
      Run.console "error"
      Run.console "error"
      Run.reject error

/-- Source: `getStartingMaterialList()`. -/
def getStartingMaterialList (env : Env) : Run JSVal :=
  (fetch_get env (URL.ofString (env.API_URL ++ "/starting-materials/"))
    >>= fun response_json => do
      let items ← Run.eval (response_json.prop "items")
      Run.commit "setStartingMaterialList" items
      pure undefined).catchWith fun error =>
    if error.isString "UNAUTHORIZED" then do
      Run.commit "setStartingMaterialList" (arr [])
      pure undefined
    else do
      Run.console "error"
      Run.console "error"
      Run.reject error

/-- Source: `getEquipmentList()`. -/
def getEquipmentList (env : Env) : Run JSVal :=
  (fetch_get env (URL.ofString (env.API_URL ++ "/equipment/"))
    >>= fun response_json => do
      let items ← Run.eval (response_json.prop "items")
      Run.commit "setEquipmentList" items
      pure undefined).catchWith fun error =>
    if error.isString "UNAUTHORIZED" then do
      Run.commit "setEquipmentList" (arr [])
      pure undefined
    else do
      Run.console "error"
      Run.console "error"
      Run.reject error

/-- Source: `searchItems(query, nresults = 100, types = null)`.  The three
`append` calls of the `forEach` over `Object.keys(params)` are written out in
the insertion order of the object literal. -/
def searchItems (env : Env) (query nresults types : JSVal) : Run JSVal := do
  let nresults := orDefault nresults (num SafeInt.hundred)
  let types := orDefault types null
  let url : URL :=
    { href := env.API_URL ++ "/search-items/",
      searchParams := [("query", toJSString query), ("nresults", toJSString nresults),
                       ("types", toJSString types)] }
  Run.console "log"
  Run.console "log"
  Run.console "log"
  fetch_get env url >>= fun response_json =>
    Run.eval (response_json.prop "items")

/-- The text of the alert of the delete operations on items. -/
def deleteItemAlert (item_id : JSVal) : String :=
  "Unable to delete item with ID \x27" ++ toJSString item_id ++
    "\x27: check that you have the appropriate permissions."

/-- Source: `deleteSample(item_id)`. -/
def deleteSample (env : Env) (item_id : JSVal) : Run JSVal :=
  (fetch_post env (URL.ofString (env.API_URL ++ "/delete-sample/")) (obj [("item_id", item_id)])
    >>= fun _response_json => do
      Run.console "log"
      Run.commit "deleteFromSampleList" item_id
      pure undefined).catchWith fun _ => do
    Run.alert (deleteItemAlert item_id)
    pure undefined

/-- Source: `deleteStartingMaterial(item_id)`. -/
def deleteStartingMaterial (env : Env) (item_id : JSVal) : Run JSVal :=
  (fetch_post env (URL.ofString (env.API_URL ++ "/delete-sample/")) (obj [("item_id", item_id)])
    >>= fun _response_json => do
      Run.console "log"
      Run.commit "deleteFromStartingMaterialList" item_id
      pure undefined).catchWith fun _ => do
    Run.alert (deleteItemAlert item_id)
    pure undefined

/-- Source: `deleteCollection(collection_id, collection_summary)`.  `fetch_delete`
is called with the URL only, so its `body` is `undefined`. -/
def deleteCollection (env : Env) (collection_id collection_summary : JSVal) : Run JSVal :=
  (fetch_delete env (URL.ofString (env.API_URL ++ "/collections/" ++ toJSString collection_id))
      undefined
    >>= fun _response_json => do
      Run.console "log"
      Run.commit "deleteFromCollectionList" collection_summary
      pure undefined).catchWith fun _ => do
    Run.alert ("Unable to delete collection with ID \x27" ++ toJSString collection_id ++
      "\x27: check that you have the appropriate permissions.")
    pure undefined

/-- Source: `deleteEquipment(item_id)`. -/
def deleteEquipment (env : Env) (item_id : JSVal) : Run JSVal :=
  (fetch_post env (URL.ofString (env.API_URL ++ "/delete-sample/")) (obj [("item_id", item_id)])
    >>= fun _response_json => do
      Run.console "log"
      Run.commit "deleteFromEquipmentList" item_id
      pure undefined).catchWith fun _ => do
    Run.alert (deleteItemAlert item_id)
    pure undefined

/-- The request body of `updateBlockFromServer`: the object literal passed to
`fetch_post`. -/
def updateBlockBody (item_id block_id block_data saveToDatabase : JSVal) : JSVal :=
  obj [("item_id", item_id), ("block_id", block_id), ("block_data", block_data),
       ("save_to_db", saveToDatabase)]

/-- Source: `updateBlockFromServer(item_id, block_id, block_data, saveToDatabase = true)`.
The three `delete` statements run first, in the body of the `async` function:
when one of them throws, the promise of the function rejects. -/
def updateBlockFromServer (env : Env) (item_id block_id block_data saveToDatabase : JSVal) :
    Run JSVal := do
  let saveToDatabase := orDefault saveToDatabase (bool true)
  let block_data ← Run.eval (deleteProp "bokeh_plot_data" block_data)
  let block_data ← Run.eval (deleteProp "processed_data" block_data)
  let block_data ← Run.eval (deleteProp "metadata" block_data)
  Run.commit "setBlockUpdating" block_id
  (fetch_post env (URL.ofString (env.API_URL ++ "/update-block/"))
      (updateBlockBody item_id block_id block_data saveToDatabase)
    >>= fun response_json => do
      let new_block_data ← Run.eval (response_json.prop "new_block_data")
      Run.commit "updateBlockData"
        (obj [("item_id", item_id), ("block_id", block_id), ("block_data", new_block_data)])
      Run.commit "setBlockNotUpdating" block_id
      let saved_successfully ← Run.eval (response_json.prop "saved_successfully")
      Run.commit "setBlockSaved" (obj [("block_id", block_id), ("isSaved", saved_successfully)])
      Run.commit "setBlockImplementationError"
        (obj [("block_id", block_id), ("hasError", bool false)])
      pure undefined).catchWith fun _error => do
    Run.console "warn"
    Run.commit "setBlockImplementationError" (obj [("block_id", block_id), ("hasError", bool true)])
    Run.commit "setBlockNotUpdating" block_id
    pure undefined

/-- Source: `updateItemPermissions(refcode, creators)`. -/
def updateItemPermissions (env : Env) (refcode creators : JSVal) : Run JSVal := do
  Run.console "log"
  fetch_patch env (URL.ofString (env.API_URL ++ "/items/" ++ toJSString refcode ++ "/permissions"))
      (obj [("creators", creators)])
    >>= fun response_json => do
      let status ← Run.eval (response_json.prop "status")
      if status.isString "error" then
        let message ← Run.eval (response_json.prop "message")
        Run.reject (newError message)
      else
        pure response_json

/-- Source: `getItemGraph` with its destructured argument of two optional keys,
`item_id = null` and `collection_id = null`. -/
def getItemGraph (env : Env) (item_id collection_id : JSVal) : Run JSVal :=
  let item_id := orDefault item_id null
  let collection_id := orDefault collection_id null
  let url := env.API_URL ++ "/item-graph"
  let url := if !item_id.isNullish then url ++ "/" ++ toJSString item_id else url
  let url := if !collection_id.isNullish then url ++ "?collection_id=" ++ toJSString collection_id
    else url
  (fetch_get env (URL.ofString url)
    >>= fun response_json => do
      Run.console "log"
      let nodes ← Run.eval (response_json.prop "nodes")
      let edges ← Run.eval (response_json.prop "edges")
      Run.commit "setItemGraph" (obj [("nodes", nodes), ("edges", edges)])
      pure undefined).catchWith fun error =>
    pure (str ("getItemGraph unsuccessful. Error: " ++ toJSString error))

/-! ## Further helpers -/

/-- Loose comparison `v == "s"` with a string literal `s` that is not the text
of a number: a string is compared as it is, an object by its string
conversion, and `undefined`, `null`, booleans and numbers are never equal to
such a literal. -/
def looseEqText (v : JSVal) (s : String) : Bool :=
  match v with
  | .str t => t == s
  | .arr items => joinItems items == s
  | .obj _ => "[object Object]" == s
  | .error name message => toJSString (.error name message) == s
  | _ => false

/-- The loop of `forEach` over the elements of an array. -/
def Run.each (f : JSVal → Run Unit) : List JSVal → Run Unit
  | [] => pure ()
  | x :: rest => do
    f x
    Run.each f rest

/-- Call `items.forEach(f)`; a `TypeError` when `items` is not an array. -/
def Run.forEach (items : JSVal) (f : JSVal → Run Unit) : Run Unit :=
  match items with
  | .arr xs => Run.each f xs
  | .undefined => Run.reject (typeError .undefined "forEach")
  | .null => Run.reject (typeError .null "forEach")
  | _ => Run.reject (.error "TypeError" "forEach is not a function")

/-- The loop of `users.some(user => user.account_status === "unverified")`: it
stops at the first unverified user. -/
def someUnverified : List JSVal → Except JSVal Bool
  | [] => .ok false
  | user :: rest =>
    match user.prop "account_status" with
    | .error e => .error e
    | .ok status => if status.isString "unverified" then .ok true else someUnverified rest

/-- Call `users.some(...)` of `getUsersList`; a `TypeError` when `users` is
not an array. -/
def hasUnverifiedUser (users : JSVal) : Except JSVal Bool :=
  match users with
  | .arr xs => someUnverified xs
  | .undefined => .error (typeError .undefined "some")
  | .null => .error (typeError .null "some")
  | _ => .error (.error "TypeError" "some is not a function")

/-- The events of a trace up to and including the first `fetch`: what a
promise-returning operation does before it returns its promise. -/
def syncPart : List Event → List Event
  | [] => []
  | .fetch u o :: _ => [.fetch u o]
  | e :: rest => e :: syncPart rest

/-- The events of a trace after the first `fetch`. -/
def asyncPart : List Event → List Event
  | [] => []
  | .fetch _ _ :: rest => rest
  | _ :: rest => asyncPart rest

/-- A promise `p` that is started and not awaited, followed by synchronous
code `rest`: the request of `p` is dispatched, `rest` runs, and the handlers
of `p` run afterwards; the outcome of `p` is dropped. -/
def Run.startThen {α : Type} (p : Run JSVal) (rest : Run α) : Run α :=
  ⟨syncPart p.trace ++ rest.trace ++ asyncPart p.trace, rest.result⟩

/-- A promise chain that the enclosing function does not return: its effects
happen and the function returns `undefined`. -/
def Run.detach (p : Run JSVal) : Run JSVal :=
  ⟨p.trace, .ok .undefined⟩

/-- Whether `alert` was called. -/
def Run.alerted {α : Type} (p : Run α) : Bool :=
  p.trace.any (fun e => match e with
    | .alert _ => true
    | _ => false)

/-- Whether `console.error` or `console.warn` was called. -/
def Run.errorLogged {α : Type} (p : Run α) : Bool :=
  p.trace.any (fun e => match e with
    | .console level => level == "error" || level == "warn"
    | _ => false)

/-- Whether the run throws, or its promise rejects. -/
def Run.rejects {α : Type} (p : Run α) : Bool :=
  match p.result with
  | .error _ => true
  | .ok _ => false

/-! ## Endpoint operations, continued -/

/-- Source: `createNewSamples(newSampleDatas, copyFromItemIds = null,
generateIDsAutomatically = false)`. -/
def createNewSamples (env : Env) (newSampleDatas copyFromItemIds generateIDsAutomatically : JSVal) :
    Run JSVal :=
  fetch_post env (URL.ofString (env.API_URL ++ "/new-samples/"))
    (obj [("copy_from_item_ids", orDefault copyFromItemIds null),
          ("new_sample_datas", newSampleDatas),
          ("generate_ids_automatically", orDefault generateIDsAutomatically (bool false))])
  >>= fun response_json => do
    Run.console "log"
    Run.console "log"
    let responses ← Run.eval (response_json.prop "responses")
    Run.forEach responses fun response => do
      let status ← Run.eval (response.prop "status")
      if looseEqText status "success" then
        let sample_list_entry ← Run.eval (response.prop "sample_list_entry")
        Run.commit "prependToSampleList" sample_list_entry
    pure responses

/-- Source: `createNewCollection(collection_id, title = "", startingData = {},
copyFrom = null)`.  `startingData` is an object, `none` when the argument is
omitted. -/
def createNewCollection (env : Env) (collection_id title : JSVal)
    (startingData : Option (List (String × JSVal))) (copyFrom : JSVal) : Run JSVal :=
  fetch_put env (URL.ofString (env.API_URL ++ "/collections"))
    (obj [("copy_from_collection_id", orDefault copyFrom null),
          ("data",
            obj (spread
              [("collection_id", collection_id), ("title", orDefault title (str "")),
               ("type", str "collections")]
              (startingData.getD [])))])
  >>= fun response_json => do
    let data ← Run.eval (response_json.prop "data")
    Run.commit "prependToCollectionList" data
    pure (str "success")

/-- Source: `getStats()`. -/
def getStats (env : Env) : Run JSVal :=
  (fetch_get env (URL.ofString (env.API_URL ++ "/info/stats"))
    >>= fun response_json =>
      Run.eval (response_json.prop "counts")).catchWith fun error => do
    Run.console "error"
    Run.reject error

/-- Source: `getInfo()`. -/
def getInfo (env : Env) : Run JSVal :=
  (fetch_get env (URL.ofString (env.API_URL ++ "/info"))
    >>= fun response_json => do
      let data ← Run.eval (response_json.prop "data")
      let attributes ← Run.eval (data.prop "attributes")
      Run.commit "setServerInfo" attributes
      pure attributes).catchWith fun error => do
    Run.console "error"
    Run.reject error

/-- Source: `getUsersList()`. -/
def getUsersList (env : Env) : Run JSVal :=
  (fetch_get env (URL.ofString (env.API_URL ++ "/users"))
    >>= fun response_json => do
      let users ← Run.eval (response_json.prop "data")
      let hasUnverified ← Run.eval (hasUnverifiedUser users)
      Run.commit "updateHasUnverified" (bool hasUnverified)
      pure users).catchWith fun error => do
    Run.console "error"
    Run.console "error"
    Run.reject error

/-- Source: `searchCollections(query, nresults = 100)`. -/
def searchCollections (env : Env) (query nresults : JSVal) : Run JSVal :=
  let nresults := orDefault nresults (num SafeInt.hundred)
  let url : URL :=
    { href := env.API_URL ++ "/search-collections",
      searchParams := [("query", toJSString query), ("nresults", toJSString nresults)] }
  fetch_get env url >>= fun response_json =>
    Run.eval (response_json.prop "data")

/-- Source: `getUserInfo()`. -/
def getUserInfo (env : Env) : Run JSVal :=
  (fetch_get env (URL.ofString (env.API_URL ++ "/get-current-user/"))
    >>= fun response_json => do
      let display_name ← Run.eval (response_json.prop "display_name")
      Run.commit "setDisplayName" display_name
      let immutable_id ← Run.eval (response_json.prop "immutable_id")
      Run.commit "setCurrentUserID" immutable_id
      let account_status ← Run.eval (response_json.prop "account_status")
      Run.commit "setIsUnverified" (bool (looseEqText account_status "unverified"))
      pure response_json).catchWith fun _ =>
    pure null

/-- Source: `requestMagicLink(email_address)`.  `origin` is the value of
`window.location.origin`. -/
def requestMagicLink (env : Env) (origin email_address : JSVal) : Run JSVal :=
  (fetch_post env (URL.ofString (env.API_URL ++ "/login/magic-link"))
      (obj [("email", email_address), ("referrer", origin)])
    >>= fun response_json =>
      pure response_json).catchWith fun err =>
    pure err

/-- Source: `searchUsers(query, nresults = 100)`. -/
def searchUsers (env : Env) (query nresults : JSVal) : Run JSVal := do
  let nresults := orDefault nresults (num SafeInt.hundred)
  let url : URL :=
    { href := env.API_URL ++ "/search-users/",
      searchParams := [("query", toJSString query), ("nresults", toJSString nresults)] }
  Run.console "log"
  Run.console "log"
  Run.console "log"
  fetch_get env url >>= fun response_json =>
    Run.eval (response_json.prop "users")

/-- Source: `removeItemsFromCollection(collection_id, refcodes)`. -/
def removeItemsFromCollection (env : Env) (collection_id refcodes : JSVal) : Run JSVal :=
  (fetch_delete env
      (URL.ofString (env.API_URL ++ "/collections/" ++ toJSString collection_id ++ "/items"))
      (obj [("refcodes", refcodes)])
    >>= fun response_json => do
      Run.console "log"
      Run.commit "removeItemsFromCollection"
        (obj [("collection_id", collection_id), ("refcodes", refcodes)])
      pure response_json).catchWith fun error => do
    Run.alert ("Failed to remove items from collection " ++ toJSString collection_id ++ ": " ++
      toJSString error)
    Run.reject error

/-- Source: `getItemData(item_id)`. -/
def getItemData (env : Env) (item_id : JSVal) : Run JSVal :=
  (fetch_get env (URL.ofString (env.API_URL ++ "/get-item-data/" ++ toJSString item_id))
    >>= fun response_json => do
      Run.console "log"
      let item_data ← Run.eval (response_json.prop "item_data")
      let child_items ← Run.eval (response_json.prop "child_items")
      let parent_items ← Run.eval (response_json.prop "parent_items")
      Run.commit "createItemData"
        (obj [("item_id", item_id), ("item_data", item_data), ("child_items", child_items),
              ("parent_items", parent_items)])
      pure (str "success")).catchWith fun error => do
    Run.alert ("Error getting sample data: " ++ toJSString error)
    pure undefined

/-- Source: `getItemByRefcode(refcode)`. -/
def getItemByRefcode (env : Env) (refcode : JSVal) : Run JSVal :=
  (fetch_get env (URL.ofString (env.API_URL ++ "/items/" ++ toJSString refcode))
    >>= fun response_json => do
      let item_data ← Run.eval (response_json.prop "item_data")
      let item_id ← Run.eval (item_data.prop "item_id")
      let child_items ← Run.eval (response_json.prop "child_items")
      let parent_items ← Run.eval (response_json.prop "parent_items")
      Run.commit "createItemData"
        (obj [("refcode", refcode), ("item_id", item_id), ("item_data", item_data),
              ("child_items", child_items), ("parent_items", parent_items)])
      pure (str "success")).catchWith fun error => do
    Run.alert ("Error getting item data: " ++ toJSString error)
    pure undefined

/-- Source: `getCollectionData(collection_id)`. -/
def getCollectionData (env : Env) (collection_id : JSVal) : Run JSVal :=
  (fetch_get env (URL.ofString (env.API_URL ++ "/collections/" ++ toJSString collection_id))
    >>= fun response_json => do
      Run.console "log"
      let data ← Run.eval (response_json.prop "data")
      let child_items ← Run.eval (response_json.prop "child_items")
      Run.commit "setCollectionData"
        (obj [("collection_id", collection_id), ("data", data), ("child_items", child_items)])
      pure (str "success")).catchWith fun error => do
    Run.alert ("Error getting collection data: " ++ toJSString error)
    pure undefined

/-- Source: `addABlock(item_id, block_type, index = null)`. -/
def addABlock (env : Env) (item_id block_type index : JSVal) : Run JSVal := do
  Run.console "log"
  (fetch_post env (URL.ofString (env.API_URL ++ "/add-data-block/"))
      (obj [("item_id", item_id), ("block_type", block_type),
            ("index", orDefault index null)])
    >>= fun response_json => do
      let new_block_obj ← Run.eval (response_json.prop "new_block_obj")
      let new_block_insert_index ← Run.eval (response_json.prop "new_block_insert_index")
      Run.commit "addABlock"
        (obj [("item_id", item_id), ("new_block_obj", new_block_obj),
              ("new_block_insert_index", new_block_insert_index)])
      Run.eval (new_block_obj.prop "block_id")).catchWith fun _error => do
    Run.console "error"
    pure undefined

/-- Source: `saveItem(item_id)`.  `all_item_data` is the object
`store.state.all_item_data` when the function is called, `all_item_data_then`
the same object when the response handler runs.  The promise chain is not
returned. -/
def saveItem (env : Env) (all_item_data all_item_data_then : List (String × JSVal))
    (item_id : JSVal) : Run JSVal := do
  Run.console "log"
  let item_data := (all_item_data.lookup (toJSString item_id)).getD undefined
  Run.console "log"
  Run.commit "setItemSaved" (obj [("item_id", item_id), ("isSaved", bool false)])
  Run.detach
    ((fetch_post env (URL.ofString (env.API_URL ++ "/save-item/"))
        (obj [("item_id", item_id), ("data", item_data)])
      >>= fun response_json => do
        let status ← Run.eval (response_json.prop "status")
        if status.isString "success" then
          Run.console "log"
          let last_modified ← Run.eval (response_json.prop "last_modified")
          Run.commit "updateItemData"
            (obj [("item_id", item_id), ("item_data", obj [("last_modified", last_modified)])])
          Run.commit "setItemSaved" (obj [("item_id", item_id), ("isSaved", bool true)])
          let item := (all_item_data_then.lookup (toJSString item_id)).getD undefined
          let display_order ← Run.eval (item.prop "display_order")
          Run.forEach display_order fun block_id =>
            Run.commit "setBlockSaved" (obj [("block_id", block_id), ("isSaved", bool true)])
        pure undefined).catchWith fun _error => do
      Run.alert "Save unsuccessful :("
      pure undefined)

/-- Source: `saveCollection(collection_id)`.  `all_collection_data` is the
object `store.state.all_collection_data` when the function is called.  The
promise chain is not returned. -/
def saveCollection (env : Env) (all_collection_data : List (String × JSVal))
    (collection_id : JSVal) : Run JSVal :=
  let data := (all_collection_data.lookup (toJSString collection_id)).getD undefined
  Run.detach
    ((fetch_patch env
        (URL.ofString (env.API_URL ++ "/collections/" ++ toJSString collection_id))
        (obj [("data", data)])
      >>= fun response_json => do
        let status ← Run.eval (response_json.prop "status")
        if status.isString "success" then
          Run.console "log"
          Run.commit "setSavedCollection"
            (obj [("collection_id", collection_id), ("isSaved", bool true)])
        pure undefined).catchWith fun _error => do
      Run.alert "Save unsuccessful :("
      pure undefined)

/-- Source: `saveUser(user_id, user)`.  The promise chain is not returned, and
the promise of `getUserInfo()` is not awaited. -/
def saveUser (env : Env) (user_id user : JSVal) : Run JSVal :=
  Run.detach
    ((fetch_patch env (URL.ofString (env.API_URL ++ "/users/" ++ toJSString user_id)) user
      >>= fun response_json => do
        let status ← Run.eval (response_json.prop "status")
        if status.isString "success" then
          Run.startThen (getUserInfo env) (Run.console "log")
        else
          Run.alert "User save unsuccessful"
        pure undefined).catchWith fun error => do
      Run.alert ("User save unsuccessful: " ++ toJSString error)
      pure undefined)

/-- Source: `saveRole(user_id, role)`.  The promise chain is not returned. -/
def saveRole (env : Env) (user_id role : JSVal) : Run JSVal :=
  Run.detach
    ((fetch_patch env (URL.ofString (env.API_URL ++ "/roles/" ++ toJSString user_id)) role
      >>= fun response_json => do
        let status ← Run.eval (response_json.prop "status")
        if status.isString "success" then
          Run.console "log"
        else
          Run.alert "Role save unsuccessful"
        pure undefined).catchWith fun error => do
      Run.alert ("Role save unsuccessful: " ++ toJSString error)
      pure undefined)

/-- Source: `deleteBlock(item_id, block_id)`.  The promise chain is not
returned. -/
def deleteBlock (env : Env) (item_id block_id : JSVal) : Run JSVal := do
  Run.console "log"
  Run.detach
    ((fetch_post env (URL.ofString (env.API_URL ++ "/delete-block/"))
        (obj [("item_id", item_id), ("block_id", block_id)])
      >>= fun _response_json => do
        Run.commit "removeBlockFromDisplay" (obj [("item_id", item_id), ("block_id", block_id)])
        pure undefined).catchWith fun error => do
      Run.alert ("Delete unsuccessful :(\n error: " ++ toJSString error)
      pure undefined)

/-- Source: `deleteFileFromSample(item_id, file_id)`.  The promise chain is not
returned. -/
def deleteFileFromSample (env : Env) (item_id file_id : JSVal) : Run JSVal :=
  Run.detach
    ((fetch_post env (URL.ofString (env.API_URL ++ "/delete-file-from-sample/"))
        (obj [("item_id", item_id), ("file_id", file_id)])
      >>= fun _ => do
        Run.commit "removeFileFromSample" (obj [("item_id", item_id), ("file_id", file_id)])
        pure undefined).catchWith fun error => do
      Run.alert ("Delete unsuccessful :(\n error: " ++ toJSString error)
      pure undefined)

/-- Source: `fetchRemoteTree(invalidate_cache)`. -/
def fetchRemoteTree (env : Env) (invalidate_cache : JSVal) : Run JSVal := do
  let invalidate_cache_param := if invalidate_cache.truthy then "1" else "0"
  let url := URL.ofString
    (env.API_URL ++ "/list-remote-directories?invalidate_cache=" ++ invalidate_cache_param)
  Run.console "log"
  Run.commit "setRemoteDirectoryTreeIsLoading" (bool true)
  (fetch_get env url
    >>= fun response_json => do
      Run.commit "setRemoteDirectoryTree" response_json
      Run.commit "setRemoteDirectoryTreeIsLoading" (bool false)
      pure response_json).catchWith fun error => do
    Run.console "error"
    Run.console "error"
    Run.commit "setRemoteDirectoryTreeIsLoading" (bool false)
    Run.reject error

/-- Source: `addRemoteFileToSample(file_entry, item_id)`. -/
def addRemoteFileToSample (env : Env) (file_entry item_id : JSVal) : Run JSVal :=
  (fetch_post env (URL.ofString (env.API_URL ++ "/add-remote-file-to-sample/"))
      (obj [("file_entry", file_entry), ("item_id", item_id)])
    >>= fun response_json => do
      let is_update ← Run.eval (response_json.prop "is_update")
      if !is_update.truthy then
        let file_information ← Run.eval (response_json.prop "file_information")
        Run.console "log"
        let file_id ← Run.eval (response_json.prop "file_id")
        Run.commit "addFileToSample"
          (obj [("item_id", item_id), ("file_id", file_id), ("file_info", file_information)])
      pure undefined).catchWith fun error =>
    pure (str ("addRemoteFilesToSample unsuccessful. Error: " ++ toJSString error))

/-- Source: `requestNewAPIKey()`, a `try`/`catch` around an awaited request. -/
def requestNewAPIKey (env : Env) : Run JSVal :=
  (fetch_get env (URL.ofString (env.API_URL ++ "/get-api-key/"))
    >>= fun response_json => do
      let key ← Run.eval (response_json.prop "key")
      if key.truthy then
        Run.console "log"
        pure key
      else
        let message ← Run.eval (response_json.prop "message")
        Run.reject (newError message)).catchWith fun error => do
    let message ← Run.eval (error.prop "message")
    Run.reject (newError (str ("Failed to request new API key: " ++ toJSString message)))

/-- Source: `getBlocksInfos()`. -/
def getBlocksInfos (env : Env) : Run JSVal :=
  (fetch_get env (URL.ofString (env.API_URL ++ "/info/blocks"))
    >>= fun response_json => do
      let data ← Run.eval (response_json.prop "data")
      Run.commit "setBlocksInfos" data
      pure data).catchWith fun error => do
    Run.console "error"
    Run.console "error"
    Run.reject error

/-- Source: `addItemsToCollection(collection_id, refcodes)`. -/
def addItemsToCollection (env : Env) (collection_id refcodes : JSVal) : Run JSVal :=
  (fetch_post env (URL.ofString (env.API_URL ++ "/collections/" ++ toJSString collection_id))
      (obj [("data", obj [("refcodes", refcodes)])])
    >>= fun response_json => do
      let status ← Run.eval (response_json.prop "status")
      if status.isString "success" then
        Run.console "log"
        pure response_json
      else
        Run.console "error"
        Run.reject (newError (str "Failed to add items to collection."))).catchWith
    fun error => do
      Run.alert "Error adding items to collection: "
      Run.reject error

/-- Source: `getSupportedSchemasList()`. -/
def getSupportedSchemasList (env : Env) : Run JSVal :=
  (fetch_get env (URL.ofString (env.API_URL ++ "/info/types"))
    >>= fun response_json =>
      if response_json.truthy then
        Run.eval (response_json.prop "data")
      else
        Run.reject (newError (str "Failed to get schemas from API."))).catchWith
    fun error => do
      Run.alert ("Error to get schemas from API: " ++ toJSString error)
      Run.reject error

/-- Source: `getSchema(type)`. -/
def getSchema (env : Env) (type : JSVal) : Run JSVal :=
  (fetch_get env (URL.ofString (env.API_URL ++ "/info/types/" ++ toJSString type))
    >>= fun response_json =>
      if response_json.truthy then
        Run.eval (response_json.prop "data")
      else
        Run.reject
          (newError (str ("Failed to get " ++ toJSString type ++ " schemas from API.")))).catchWith
    fun error => do
      Run.alert ("Error to get " ++ toJSString type ++ " schema from API: " ++ toJSString error)
      Run.reject error

/-! ## Predicates used in the statements -/

/-- The policy of a list fetch when its request is rejected.  `request` is the
promise of the request, `operation` the whole operation and `mutation` the
mutation that sets the list of the operation: a rejection with exactly
`"UNAUTHORIZED"` commits the empty list and resolves; a rejection with any
other value commits nothing and is passed on. -/
def RejectionPolicy (request operation : Run JSVal) (mutation : String) : Prop :=
  (request.result = .error (str "UNAUTHORIZED") →
    operation.commits = [(mutation, arr [])] ∧ operation.result = .ok undefined) ∧
  (∀ e, request.result = .error e → e ≠ str "UNAUTHORIZED" →
    operation.commits = [] ∧ operation.result = .error e)

/-- The three keys that a block update must not transmit. -/
def strippedKeys : List String := ["bokeh_plot_data", "processed_data", "metadata"]

/-- The block data a block update is to transmit, in the words of the
specification: the properties of the input whose key is none of the three
stripped keys, unchanged and in their order. -/
def transmittedBlockData (block_data : List (String × JSVal)) : List (String × JSVal) :=
  block_data.filter (fun kv => !strippedKeys.contains kv.1)

/-- The block data a block update is to transmit, for any value that is not
`null` or `undefined`: an object without the three stripped keys, and any
other value as it is. -/
def sentBlockData (block_data : JSVal) : JSVal :=
  match block_data with
  | .obj fields => obj (transmittedBlockData fields)
  | w => w

/-- The request of `updateBlockFromServer` for the given arguments. -/
def updateBlockRequest (env : Env) (item_id block_id block_data saveToDatabase : JSVal) :
    Run JSVal :=
  fetch_post env (URL.ofString (env.API_URL ++ "/update-block/"))
    (updateBlockBody item_id block_id (sentBlockData block_data)
      (orDefault saveToDatabase (bool true)))

/-- The mutations of a run that set or clear the updating mark of a block. -/
def updatingMarks (p : Run JSVal) : List (String × JSVal) :=
  p.commits.filter (fun c => c.1 == "setBlockUpdating" || c.1 == "setBlockNotUpdating")

/-- The mutations of a run that set the implementation-error flag of a block. -/
def errorFlags (p : Run JSVal) : List (String × JSVal) :=
  p.commits.filter (fun c => c.1 == "setBlockImplementationError")

/-- The target of `searchItems` in the words of the specification: the
`/search-items/` endpoint with the parameters `query`, `nresults` and `types`,
in that order, `types` being the given type names separated by commas. -/
def searchItemsTarget (env : Env) (query nresults : String) (types : List String) : URL :=
  { href := env.API_URL ++ "/search-items/",
    searchParams := [("query", query), ("nresults", nresults),
                     ("types", String.intercalate "," types)] }

/-- The options of every `GET` request. -/
def getOptions (env : Env) : RequestOptions :=
  { method := "GET", headers := construct_headers env none, body := none,
    credentials := "include" }

/-- The request of `updateItemPermissions` for the given arguments. -/
def permissionsRequest (env : Env) (refcode creators : JSVal) : Run JSVal :=
  fetch_patch env
    (URL.ofString (env.API_URL ++ "/items/" ++ toJSString refcode ++ "/permissions"))
    (obj [("creators", creators)])

/-- The request of `saveItem` for the given store and item. -/
def saveItemRequest (env : Env) (all_item_data : List (String × JSVal)) (item_id : JSVal) :
    Run JSVal :=
  fetch_post env (URL.ofString (env.API_URL ++ "/save-item/"))
    (obj [("item_id", item_id),
          ("data", (all_item_data.lookup (toJSString item_id)).getD undefined)])

/-- The request of `saveCollection` for the given store and collection. -/
def saveCollectionRequest (env : Env) (all_collection_data : List (String × JSVal))
    (collection_id : JSVal) : Run JSVal :=
  fetch_patch env (URL.ofString (env.API_URL ++ "/collections/" ++ toJSString collection_id))
    (obj [("data", (all_collection_data.lookup (toJSString collection_id)).getD undefined)])

/-- The request of `saveUser`. -/
def saveUserRequest (env : Env) (user_id user : JSVal) : Run JSVal :=
  fetch_patch env (URL.ofString (env.API_URL ++ "/users/" ++ toJSString user_id)) user

/-- The request of `saveRole`. -/
def saveRoleRequest (env : Env) (user_id role : JSVal) : Run JSVal :=
  fetch_patch env (URL.ofString (env.API_URL ++ "/roles/" ++ toJSString user_id)) role

/-- A failed operation that passes the failure on: its promise rejects with
`e`; `logged` says whether it called `console.error` or `console.warn`,
`alerted` whether it called `alert`. -/
def Propagates (operation : Run JSVal) (e : JSVal) (logged alerted : Bool) : Prop :=
  operation.errorLogged = logged ∧ operation.alerted = alerted ∧ operation.result = .error e

/-- A failed operation that does not pass the failure on: it does not throw
and its promise, if it returns one, does not reject; `logged` and `alerted`
are as in `Propagates`. -/
def Swallows (operation : Run JSVal) (logged alerted : Bool) : Prop :=
  operation.errorLogged = logged ∧ operation.alerted = alerted ∧ operation.rejects = false

/-! ## Concrete instances -/

/-- The texts used in the examples, each with the value `JSON.parse` gives
for it. -/
def exampleTexts : List (String × JSVal) :=
  [("\x7b\"message\":\"\"\x7d", obj [("message", str "")]),
   ("\x7b\"message\":\"Item not found\"\x7d", obj [("message", str "Item not found")]),
   ("\x7b\"status\":\"success\"\x7d", obj [("status", str "success")]),
   ("\x7b\"status\":\"error\",\"message\":\"no access\"\x7d",
     obj [("status", str "error"), ("message", str "no access")]),
   ("\x7b\"items\":[]\x7d", obj [("items", arr [])]),
   ("\x7b\"sample_list_entry\":\x7b\"item_id\":\"s1\",\"type\":\"samples\"\x7d\x7d",
     obj [("sample_list_entry", obj [("item_id", str "s1"), ("type", str "samples")])]),
   ("\x7b\"new_block_data\":\x7b\x7d,\"saved_successfully\":true\x7d",
     obj [("new_block_data", obj []), ("saved_successfully", bool true)]),
   ("\x7b\"status\":\"success\",\"last_modified\":\"2024-05-01T10:00:00\"\x7d",
     obj [("status", str "success"), ("last_modified", str "2024-05-01T10:00:00")]),
   ("null", null)]

/-- A finite fragment of `JSON.parse`: the texts of `exampleTexts`; any other
text counts as a syntax error. -/
def exampleParse (text : String) : Except JSVal JSVal :=
  match exampleTexts.lookup text with
  | some v => .ok v
  | none => .error (error "SyntaxError" "Unexpected token")

/-- An environment whose server answers every request in the same way.  The
type tables are those of datalab. -/
def exampleEnv (answer : Except JSVal Response) : Env :=
  { API_URL := "http://localhost:5001"
    API_TOKEN := none
    SAMPLE_TABLE_TYPES := ["samples", "cells"]
    INVENTORY_TABLE_TYPES := ["starting_materials"]
    EQUIPMENT_TABLE_TYPES := ["equipment"]
    jsonParse := exampleParse
    fetch := fun _ _ => answer }

/-- A failure response whose payload has an empty `message`. -/
def emptyMessageResponse : Response :=
  { ok := false, statusText := "BAD REQUEST", text := "\x7b\"message\":\"\"\x7d" }

/-- A failure response whose payload has a non-empty `message`. -/
def notFoundResponse : Response :=
  { ok := false, statusText := "NOT FOUND", text := "\x7b\"message\":\"Item not found\"\x7d" }

/-- A success response with an empty body. -/
def emptyOkResponse : Response :=
  { ok := true, statusText := "OK", text := "" }

/-- A success response whose body is an object with `status` equal to `"success"`. -/
def successResponse : Response :=
  { ok := true, statusText := "OK", text := "\x7b\"status\":\"success\"\x7d" }

/-- A 401 response with an empty body. -/
def unauthorizedResponse : Response :=
  { ok := false, statusText := "UNAUTHORIZED", text := "" }

/-- A success response to `/new-sample/` for an item of type `samples`. -/
def newSampleResponse : Response :=
  { ok := true, statusText := "CREATED",
    text := "\x7b\"sample_list_entry\":\x7b\"item_id\":\"s1\",\"type\":\"samples\"\x7d\x7d" }

/-- The call `createNewItem("s1", "samples", "2024-01-01", "sample one")`
against a server that answers with `newSampleResponse`. -/
def exampleCreate : Run JSVal :=
  createNewItem (exampleEnv (.ok newSampleResponse)) (str "s1") (str "samples")
    (str "2024-01-01") (str "sample one") undefined none undefined undefined

/-- The call `deleteCollection("c1", summary)` with the summary of another
collection, `c2`, against a server that reports success. -/
def exampleDeleteCollection : Run JSVal :=
  deleteCollection (exampleEnv (.ok successResponse)) (str "c1")
    (obj [("collection_id", str "c2")])

/-- A success response to `/update-block/`. -/
def blockUpdatedResponse : Response :=
  { ok := true, statusText := "OK",
    text := "\x7b\"new_block_data\":\x7b\x7d,\"saved_successfully\":true\x7d" }

/-- A block with plot data, a title and metadata. -/
def exampleBlock : List (String × JSVal) :=
  [("bokeh_plot_data", obj [("doc", str "...")]), ("title", str "XRD"),
   ("metadata", obj [])]

/-- The call `updateBlockFromServer("s1", "b1", exampleBlock)` against a server
that answers with `blockUpdatedResponse`. -/
def exampleBlockUpdate : Run JSVal :=
  updateBlockFromServer (exampleEnv (.ok blockUpdatedResponse)) (str "s1") (str "b1")
    (obj exampleBlock) undefined

/-- The same call against a server that is unreachable. -/
def exampleBlockUpdateFailed : Run JSVal :=
  updateBlockFromServer (exampleEnv (.error (error "TypeError" "Failed to fetch"))) (str "s1")
    (str "b1") (obj exampleBlock) undefined

/-- A success response to `/search-items/` with no hits. -/
def noItemsResponse : Response :=
  { ok := true, statusText := "OK", text := "\x7b\"items\":[]\x7d" }

/-- The call `searchItems("foo", 50, ["samples"])` of the specification,
against a server that answers with `noItemsResponse`. -/
def exampleSearch : Run JSVal :=
  searchItems (exampleEnv (.ok noItemsResponse)) (str "foo") (num SafeInt.fifty) (arr [str "samples"])

/-- A success response whose payload reports an error. -/
def noAccessResponse : Response :=
  { ok := true, statusText := "OK",
    text := "\x7b\"status\":\"error\",\"message\":\"no access\"\x7d" }

/-- The call `updateItemPermissions("ABCDEF", [])` against a server that
answers with `noAccessResponse`. -/
def examplePermissions : Run JSVal :=
  updateItemPermissions (exampleEnv (.ok noAccessResponse)) (str "ABCDEF") (arr [])

/-- A success response whose body is the JSON text `null`. -/
def nullBodyResponse : Response :=
  { ok := true, statusText := "OK", text := "null" }

/-- The same call against a server that answers with `nullBodyResponse`. -/
def exampleBlockUpdateNull : Run JSVal :=
  updateBlockFromServer (exampleEnv (.ok nullBodyResponse)) (str "s1") (str "b1")
    (obj exampleBlock) undefined

/-- An environment with a configured token. -/
def tokenEnv : Env :=
  { API_URL := "http://localhost:5001"
    API_TOKEN := some "secret-token"
    SAMPLE_TABLE_TYPES := ["samples", "cells"]
    INVENTORY_TABLE_TYPES := ["starting_materials"]
    EQUIPMENT_TABLE_TYPES := ["equipment"]
    jsonParse := exampleParse
    fetch := fun _ _ => .ok successResponse }

/-- An environment whose server cannot be reached: every `fetch` rejects. -/
def offlineEnv : Env :=
  exampleEnv (.error (error "TypeError" "Failed to fetch"))

/-- A success response to `/save-item/`. -/
def itemSavedResponse : Response :=
  { ok := true, statusText := "OK",
    text := "\x7b\"status\":\"success\",\"last_modified\":\"2024-05-01T10:00:00\"\x7d" }

/-- A store with one item, `s1`, that displays the blocks `b1` and `b2`. -/
def exampleItems : List (String × JSVal) :=
  [("s1", obj [("item_id", str "s1"), ("display_order", arr [str "b1", str "b2"])])]

/-- The call `saveItem("s1")` against a server that answers with
`itemSavedResponse`. -/
def exampleSaveItem : Run JSVal :=
  saveItem (exampleEnv (.ok itemSavedResponse)) exampleItems exampleItems (str "s1")

/-! ## Lemmas on the effect monad -/

@[simp] theorem Run.bind_eq {α β : Type} (p : Run α) (f : α → Run β) :
    (p >>= f) = Run.andThen p f := rfl

@[simp] theorem Run.pure_eq {α : Type} (a : α) : (pure a : Run α) = Run.ret a := rfl

theorem JSVal.prop_of_truthy (v : JSVal) (key : String) (h : v.truthy = true) :
    v.prop key = .ok (v.field key) := by
  cases v <;> simp_all [JSVal.truthy, JSVal.prop, JSVal.field]
  by_cases h1 : key = "message"
  · simp [h1]
  · by_cases h2 : key = "name" <;> simp [h1, h2]

theorem Run.andThen_result_ok {α β : Type} (p : Run α) (f : α → Run β) (a : α)
    (h : p.result = .ok a) : (p.andThen f).result = (f a).result := by
  simp [Run.andThen, h]

theorem Run.andThen_result_error {α β : Type} (p : Run α) (f : α → Run β) (e : JSVal)
    (h : p.result = .error e) : (p.andThen f).result = .error e := by
  simp [Run.andThen, h]

theorem Run.andThen_trace_ok {α β : Type} (p : Run α) (f : α → Run β) (a : α)
    (h : p.result = .ok a) : (p.andThen f).trace = p.trace ++ (f a).trace := by
  simp [Run.andThen, h]

theorem Run.andThen_trace_error {α β : Type} (p : Run α) (f : α → Run β) (e : JSVal)
    (h : p.result = .error e) : (p.andThen f).trace = p.trace := by
  simp [Run.andThen, h]

theorem Run.catchWith_result_ok {α : Type} (p : Run α) (g : JSVal → Run α) (a : α)
    (h : p.result = .ok a) : (p.catchWith g).result = .ok a := by
  simp [Run.catchWith, h]

theorem Run.catchWith_result_error {α : Type} (p : Run α) (g : JSVal → Run α) (e : JSVal)
    (h : p.result = .error e) : (p.catchWith g).result = (g e).result := by
  simp [Run.catchWith, h]

theorem Run.catchWith_trace_ok {α : Type} (p : Run α) (g : JSVal → Run α) (a : α)
    (h : p.result = .ok a) : (p.catchWith g).trace = p.trace := by
  simp [Run.catchWith, h]

theorem Run.catchWith_trace_error {α : Type} (p : Run α) (g : JSVal → Run α) (e : JSVal)
    (h : p.result = .error e) : (p.catchWith g).trace = p.trace ++ (g e).trace := by
  simp [Run.catchWith, h]

/-- The effects of `handleResponse` are its three `console.log` calls. -/
theorem handleResponse_trace (env : Env) (response : Response) :
    (handleResponse env response).trace = [.console "log", .console "log", .console "log"] := by
  unfold handleResponse
  simp only [Run.bind_eq, Run.pure_eq, Run.andThen, Run.ret, Run.console, Run.emit, Run.eval,
    Run.reject]
  by_cases ht : response.text = ""
  · cases hok : response.ok <;> simp [ht, JSVal.truthy]
  · cases hp : env.jsonParse response.text with
    | error e => simp [ht, hp]
    | ok data =>
      cases hok : response.ok
      · by_cases htr : data.truthy = true
        · simp [ht, hp, htr, JSVal.prop_of_truthy]
        · simp [ht, hp, htr]
      · simp [ht, hp]

/-- The effects of a request: the `fetch` call, then the logging of
`handleResponse` when the transport delivers a response. -/
theorem dispatch_trace (env : Env) (url : URL) (options : RequestOptions) :
    (dispatch env url options).trace = .fetch url options ::
      (match env.fetch url options with
       | .ok _ => [.console "log", .console "log", .console "log"]
       | .error _ => []) := by
  unfold dispatch
  simp only [Run.bind_eq, Run.andThen, Run.emit, Run.eval]
  cases h : env.fetch url options with
  | error e => simp
  | ok r => simp [handleResponse_trace]

/-- A request commits nothing. -/
theorem dispatch_commits (env : Env) (url : URL) (options : RequestOptions) :
    (dispatch env url options).commits = [] := by
  simp only [Run.commits, dispatch_trace]
  cases env.fetch url options <;> simp

/-- A request is one `fetch` call. -/
theorem dispatch_requests (env : Env) (url : URL) (options : RequestOptions) :
    (dispatch env url options).requests = [(url, options)] := by
  simp only [Run.requests, dispatch_trace]
  cases env.fetch url options <;> simp

/-! ## `handleResponse` -/

/-- Claim C1, as stated, fails: for a failure response whose payload is an
object with `message` equal to `""`, the payload has a `message` field, the
empty string, but the rejection value is the status text. -/
theorem handleResponse_empty_message_counterexample :
    emptyMessageResponse.ok = false ∧
    exampleParse emptyMessageResponse.text = .ok (obj [("message", str "")]) ∧
    (obj [("message", str "")]).prop "message" = .ok (str "") ∧
    (handleResponse (exampleEnv (.ok emptyMessageResponse)) emptyMessageResponse).result
      = .error (str "BAD REQUEST") ∧
    (handleResponse (exampleEnv (.ok emptyMessageResponse)) emptyMessageResponse).result
      ≠ .error (str "") := by
  refine ⟨rfl, rfl, rfl, rfl, ?_⟩
  have h : (handleResponse (exampleEnv (.ok emptyMessageResponse)) emptyMessageResponse).result
      = .error (str "BAD REQUEST") := rfl
  rw [h]
  simp

/-- Claim C1, amended: for a response with `ok` false whose body is empty
(`data` is then the empty text) or parses as JSON to `data`, `handleResponse`
rejects and never resolves; the rejection value is the `message` field of
`data` when `data` is truthy and that field is truthy, and the status text in
every other case. -/
theorem handleResponse_failure_rejects (env : Env) (response : Response) (data : JSVal)
    (hok : response.ok = false)
    (hdata : (response.text = "" ∧ data = str "") ∨
      (response.text ≠ "" ∧ env.jsonParse response.text = .ok data)) :
    (data.truthy = true → (data.field "message").truthy = true →
      (handleResponse env response).result = .error (data.field "message")) ∧
    ((data.truthy = false ∨ (data.field "message").truthy = false) →
      (handleResponse env response).result = .error (str response.statusText)) ∧
    (∀ v, (handleResponse env response).result ≠ .ok v) := by
  rcases hdata with ⟨ht, hd⟩ | ⟨ht, hd⟩
  · subst hd
    simp [handleResponse, Run.andThen, Run.ret, Run.console, Run.emit, Run.eval, Run.reject,
      hok, ht, JSVal.truthy]
  · by_cases htr : data.truthy = true
    · by_cases hm : (data.field "message").truthy = true
      · simp [handleResponse, Run.andThen, Run.ret, Run.console, Run.emit, Run.eval, Run.reject,
          hok, ht, hd, htr, hm, JSVal.prop_of_truthy]
      · simp [handleResponse, Run.andThen, Run.ret, Run.console, Run.emit, Run.eval, Run.reject,
          hok, ht, hd, htr, hm, JSVal.prop_of_truthy]
    · simp [handleResponse, Run.andThen, Run.ret, Run.console, Run.emit, Run.eval, Run.reject,
        hok, ht, hd, htr]

/-- Claim C1, amended, at a 404 response whose payload has `message` equal to
`"Item not found"`: the rejection value is the message. -/
theorem handleResponse_failure_rejects_witness :
    (handleResponse (exampleEnv (.ok notFoundResponse)) notFoundResponse).result
      = .error (str "Item not found") :=
  (handleResponse_failure_rejects (exampleEnv (.ok notFoundResponse)) notFoundResponse
    (obj [("message", str "Item not found")]) rfl (Or.inr ⟨by decide, rfl⟩)).1 rfl rfl

/-- Claim C2, as stated, fails: a success response with an empty body resolves
with the empty string, the body text itself, and not with `undefined`. -/
theorem handleResponse_empty_body_counterexample :
    emptyOkResponse.ok = true ∧ emptyOkResponse.text = "" ∧
    (handleResponse (exampleEnv (.ok emptyOkResponse)) emptyOkResponse).result = .ok (str "") ∧
    (handleResponse (exampleEnv (.ok emptyOkResponse)) emptyOkResponse).result
      ≠ .ok undefined := by
  refine ⟨rfl, rfl, rfl, ?_⟩
  have h : (handleResponse (exampleEnv (.ok emptyOkResponse)) emptyOkResponse).result
      = .ok (str "") := rfl
  rw [h]
  simp

/-- Claim C2, amended: for a response with `ok` true, `handleResponse` resolves
with the JSON-parsed body when the body text is non-empty (and parses), and
resolves with the empty string when the body text is empty. -/
theorem handleResponse_success_resolves (env : Env) (response : Response)
    (hok : response.ok = true) :
    (∀ data, response.text ≠ "" → env.jsonParse response.text = .ok data →
      (handleResponse env response).result = .ok data) ∧
    (response.text = "" → (handleResponse env response).result = .ok (str "")) := by
  constructor
  · intro data ht hd
    simp [handleResponse, Run.andThen, Run.ret, Run.console, Run.emit, Run.eval, hok, ht, hd]
  · intro ht
    simp [handleResponse, Run.andThen, Run.ret, Run.console, Run.emit, Run.eval, hok, ht]

/-- Claim C2, amended, at `successResponse`, whose body is a JSON object. -/
theorem handleResponse_success_resolves_witness :
    (handleResponse (exampleEnv (.ok successResponse)) successResponse).result
      = .ok (obj [("status", str "success")]) :=
  (handleResponse_success_resolves (exampleEnv (.ok successResponse)) successResponse rfl).1
    (obj [("status", str "success")]) (by decide) rfl

/-! ## List fetches -/

theorem JSVal.isString_iff (v : JSVal) (s : String) : v.isString s = true ↔ v = str s := by
  cases v <;> simp [JSVal.isString]

/-- The rejection handler shared by the five list fetches, applied to a
request that commits nothing. -/
theorem rejectionPolicy_of_handler (p : Run JSVal) (f : JSVal → Run JSVal) (mutation : String)
    (hc : p.commits = []) :
    RejectionPolicy p
      ((p >>= f).catchWith fun error =>
        if error.isString "UNAUTHORIZED" then do
          Run.commit mutation (arr [])
          pure undefined
        else do
          Run.console "error"
          Run.console "error"
          Run.reject error) mutation := by
  simp only [Run.commits] at hc
  constructor
  · intro h
    simp [Run.commits, Run.catchWith, Run.andThen, h, JSVal.isString, Run.commit, Run.emit,
      Run.ret, hc]
  · intro e h hne
    have hs : e.isString "UNAUTHORIZED" = false := by
      cases hb : e.isString "UNAUTHORIZED"
      · rfl
      · exact absurd ((JSVal.isString_iff e _).1 hb) hne
    simp [Run.commits, Run.catchWith, Run.andThen, h, hs, Run.console, Run.emit, Run.reject, hc]

/-- Claim C3: each of `getSampleList`, `getCollectionList`,
`getCollectionSampleList`, `getStartingMaterialList` and `getEquipmentList`
follows `RejectionPolicy`: when its request rejects with exactly
`"UNAUTHORIZED"` it commits the empty list to its own list and resolves, and
when the request rejects with any other value it commits nothing and rejects
with that value. -/
theorem list_fetch_rejection_policy (env : Env) (collection_id : JSVal) :
    RejectionPolicy (fetch_get env (URL.ofString (env.API_URL ++ "/samples/")))
      (getSampleList env) "setSampleList" ∧
    RejectionPolicy (fetch_get env (URL.ofString (env.API_URL ++ "/collections")))
      (getCollectionList env) "setCollectionList" ∧
    RejectionPolicy
      (fetch_get env (URL.ofString (env.API_URL ++ "/collections/" ++ toJSString collection_id)))
      (getCollectionSampleList env collection_id) "setCollectionSampleList" ∧
    RejectionPolicy (fetch_get env (URL.ofString (env.API_URL ++ "/starting-materials/")))
      (getStartingMaterialList env) "setStartingMaterialList" ∧
    RejectionPolicy (fetch_get env (URL.ofString (env.API_URL ++ "/equipment/")))
      (getEquipmentList env) "setEquipmentList" := by
  refine ⟨?_, ?_, ?_, ?_, ?_⟩
  · exact rejectionPolicy_of_handler _ _ _ (dispatch_commits _ _ _)
  · exact rejectionPolicy_of_handler _ _ _ (dispatch_commits _ _ _)
  · have h := rejectionPolicy_of_handler
      (fetch_get env (URL.ofString (env.API_URL ++ "/collections/" ++ toJSString collection_id)))
      (fun response_json => do
        Run.commit "setCollectionSampleList" response_json
        pure undefined) "setCollectionSampleList" (dispatch_commits _ _ _)
    simpa [RejectionPolicy, getCollectionSampleList, Run.andThen, Run.console, Run.emit,
      Run.commits] using h
  · exact rejectionPolicy_of_handler _ _ _ (dispatch_commits _ _ _)
  · exact rejectionPolicy_of_handler _ _ _ (dispatch_commits _ _ _)

/-- Claim C3 at two servers: one that answers 401 `UNAUTHORIZED` to
`getSampleList`, and one that answers 404 with a message to
`getEquipmentList`. -/
theorem list_fetch_rejection_policy_witness :
    ((getSampleList (exampleEnv (.ok unauthorizedResponse))).commits
        = [("setSampleList", arr [])] ∧
      (getSampleList (exampleEnv (.ok unauthorizedResponse))).result = .ok undefined) ∧
    ((getEquipmentList (exampleEnv (.ok notFoundResponse))).commits = [] ∧
      (getEquipmentList (exampleEnv (.ok notFoundResponse))).result
        = .error (str "Item not found")) :=
  ⟨(list_fetch_rejection_policy (exampleEnv (.ok unauthorizedResponse)) undefined).1.1 rfl,
   (list_fetch_rejection_policy (exampleEnv (.ok notFoundResponse)) undefined).2.2.2.2.2
     (str "Item not found") rfl (by simp)⟩

/-! ## `createNewItem` -/

theorem includes_disjoint (s t : List String) (v : JSVal) (h : s.Disjoint t)
    (hs : includes s v = true) : includes t v = false := by
  cases v <;> simp_all [includes]
  exact fun ht => h hs ht

/-- The mutations of a `createNewItem` call whose request resolved with a
payload carrying a `sample_list_entry` with a `type`. -/
theorem createNewItem_commits (env : Env)
    (item_id type date name startingCollection : JSVal)
    (startingData : Option (List (String × JSVal)))
    (copyFrom generateIDAutomatically response_json sample_list_entry entry_type : JSVal)
    (hp : (fetch_post env (URL.ofString (env.API_URL ++ "/new-sample/"))
      (newSampleBody item_id type date name startingCollection startingData copyFrom
        generateIDAutomatically)).result = .ok response_json)
    (h1 : response_json.prop "sample_list_entry" = .ok sample_list_entry)
    (h2 : sample_list_entry.prop "type" = .ok entry_type) :
    (createNewItem env item_id type date name startingCollection startingData copyFrom
      generateIDAutomatically).commits =
      (if includes env.SAMPLE_TABLE_TYPES entry_type then
        [("prependToSampleList", sample_list_entry)] else []) ++
      ((if includes env.INVENTORY_TABLE_TYPES entry_type then
        [("prependToStartingMaterialList", sample_list_entry)] else []) ++
      (if includes env.EQUIPMENT_TABLE_TYPES entry_type then
        [("prependToEquipmentList", sample_list_entry)] else [])) := by
  have hc := dispatch_commits env (URL.ofString (env.API_URL ++ "/new-sample/"))
    { method := "POST",
      headers := construct_headers env (some [("Content-Type", "application/json")]),
      body := some (newSampleBody item_id type date name startingCollection startingData copyFrom
        generateIDAutomatically), credentials := "include" }
  simp only [Run.commits] at hc
  unfold fetch_post at hp
  unfold createNewItem fetch_post
  simp only [Run.commits, Run.bind_eq, Run.pure_eq, Run.andThen, hp, h1, h2, Run.console,
    Run.emit, Run.eval, Run.commit, Run.ret, List.filterMap_append, hc, List.nil_append,
    List.append_nil, List.filterMap_cons, List.filterMap_nil]
  cases includes env.SAMPLE_TABLE_TYPES entry_type <;>
  cases includes env.INVENTORY_TABLE_TYPES entry_type <;>
  cases includes env.EQUIPMENT_TABLE_TYPES entry_type <;> rfl

/-- Claim C4: when the three type tables are pairwise disjoint, a successful
`createNewItem` call has received a `sample_list_entry` with a `type`, and it
commits exactly one mutation, `prependToSampleList`, when the type is in the
sample table; only `prependToStartingMaterialList` when it is in the inventory
table; only `prependToEquipmentList` when it is in the equipment table; in
every case at most one mutation is committed. -/
theorem createNewItem_routes_by_type (env : Env)
    (item_id type date name startingCollection : JSVal)
    (startingData : Option (List (String × JSVal))) (copyFrom generateIDAutomatically v : JSVal)
    (hSI : env.SAMPLE_TABLE_TYPES.Disjoint env.INVENTORY_TABLE_TYPES)
    (hSE : env.SAMPLE_TABLE_TYPES.Disjoint env.EQUIPMENT_TABLE_TYPES)
    (hIE : env.INVENTORY_TABLE_TYPES.Disjoint env.EQUIPMENT_TABLE_TYPES)
    (hsucc : (createNewItem env item_id type date name startingCollection startingData copyFrom
      generateIDAutomatically).result = .ok v) :
    ∃ response_json sample_list_entry entry_type,
      (fetch_post env (URL.ofString (env.API_URL ++ "/new-sample/"))
        (newSampleBody item_id type date name startingCollection startingData copyFrom
          generateIDAutomatically)).result = .ok response_json ∧
      response_json.prop "sample_list_entry" = .ok sample_list_entry ∧
      sample_list_entry.prop "type" = .ok entry_type ∧
      (includes env.SAMPLE_TABLE_TYPES entry_type = true →
        (createNewItem env item_id type date name startingCollection startingData copyFrom
          generateIDAutomatically).commits = [("prependToSampleList", sample_list_entry)]) ∧
      (includes env.INVENTORY_TABLE_TYPES entry_type = true →
        (createNewItem env item_id type date name startingCollection startingData copyFrom
          generateIDAutomatically).commits
          = [("prependToStartingMaterialList", sample_list_entry)]) ∧
      (includes env.EQUIPMENT_TABLE_TYPES entry_type = true →
        (createNewItem env item_id type date name startingCollection startingData copyFrom
          generateIDAutomatically).commits = [("prependToEquipmentList", sample_list_entry)]) ∧
      (createNewItem env item_id type date name startingCollection startingData copyFrom
        generateIDAutomatically).commits.length ≤ 1 := by
  cases hp : (fetch_post env (URL.ofString (env.API_URL ++ "/new-sample/"))
    (newSampleBody item_id type date name startingCollection startingData copyFrom
      generateIDAutomatically)).result with
  | error e =>
    rw [createNewItem, Run.bind_eq, Run.andThen_result_error _ _ _ hp] at hsucc
    exact absurd hsucc (by simp)
  | ok response_json =>
    rw [createNewItem, Run.bind_eq, Run.andThen_result_ok _ _ _ hp] at hsucc
    cases h1 : response_json.prop "sample_list_entry" with
    | error e => simp [Run.andThen, h1, Run.console, Run.emit, Run.eval] at hsucc
    | ok sample_list_entry =>
      cases h2 : sample_list_entry.prop "type" with
      | error e => simp [Run.andThen, h1, h2, Run.console, Run.emit, Run.eval] at hsucc
      | ok entry_type =>
        refine ⟨response_json, sample_list_entry, entry_type, rfl, h1, h2, ?_⟩
        rw [createNewItem_commits env item_id type date name startingCollection startingData
          copyFrom generateIDAutomatically response_json sample_list_entry entry_type hp h1 h2]
        refine ⟨fun hS => ?_, fun hI => ?_, fun hE => ?_, ?_⟩
        · simp [hS, includes_disjoint _ _ _ hSI hS, includes_disjoint _ _ _ hSE hS]
        · have hS : includes env.SAMPLE_TABLE_TYPES entry_type = false := by
            cases hS : includes env.SAMPLE_TABLE_TYPES entry_type
            · rfl
            · rw [includes_disjoint _ _ _ hSI hS] at hI
              exact absurd hI (by simp)
          simp [hS, hI, includes_disjoint _ _ _ hIE hI]
        · have hS : includes env.SAMPLE_TABLE_TYPES entry_type = false := by
            cases hS : includes env.SAMPLE_TABLE_TYPES entry_type
            · rfl
            · rw [includes_disjoint _ _ _ hSE hS] at hE
              exact absurd hE (by simp)
          have hI : includes env.INVENTORY_TABLE_TYPES entry_type = false := by
            cases hI : includes env.INVENTORY_TABLE_TYPES entry_type
            · rfl
            · rw [includes_disjoint _ _ _ hIE hI] at hE
              exact absurd hE (by simp)
          simp [hS, hI, hE]
        · cases hS : includes env.SAMPLE_TABLE_TYPES entry_type
          · cases hI : includes env.INVENTORY_TABLE_TYPES entry_type
            · cases hE : includes env.EQUIPMENT_TABLE_TYPES entry_type <;> simp
            · simp [includes_disjoint _ _ _ hIE hI]
          · simp [includes_disjoint _ _ _ hSI hS, includes_disjoint _ _ _ hSE hS]

/-- Claim C4 at `exampleCreate`: the tables of datalab are pairwise disjoint,
the call resolves, and its only mutation is the prepend to the sample list. -/
theorem createNewItem_routes_by_type_witness :
    exampleCreate.result = .ok (str "success") ∧
    exampleCreate.commits
      = [("prependToSampleList", obj [("item_id", str "s1"), ("type", str "samples")])] ∧
    exampleCreate.commits.length ≤ 1 := by
  refine ⟨rfl, rfl, ?_⟩
  obtain ⟨_, _, _, _, _, _, _, _, _, h⟩ :=
    createNewItem_routes_by_type (exampleEnv (.ok newSampleResponse)) (str "s1") (str "samples")
      (str "2024-01-01") (str "sample one") undefined none undefined undefined (str "success")
      (by simp [exampleEnv]) (by simp [exampleEnv]) (by simp [exampleEnv]) rfl
  exact h

/-! ## Delete operations -/

/-- The shape shared by the four delete operations: the request, then one
mutation on success, an alert on failure. -/
theorem delete_shape (p : Run JSVal) (mutation : String) (payload : JSVal) (message : String)
    (hc : p.commits = []) :
    ((p >>= fun _response_json => do
        Run.console "log"
        Run.commit mutation payload
        pure undefined).catchWith fun _ => do
      Run.alert message
      pure undefined).requests = p.requests ∧
    ∀ v, p.result = .ok v →
      ((p >>= fun _response_json => do
          Run.console "log"
          Run.commit mutation payload
          pure undefined).catchWith fun _ => do
        Run.alert message
        pure undefined).commits = [(mutation, payload)] := by
  simp only [Run.commits] at hc
  constructor
  · cases h : p.result <;>
      simp [Run.requests, Run.catchWith, Run.andThen, h, Run.console, Run.commit, Run.emit,
        Run.alert, Run.ret]
  · intro v h
    simp [Run.commits, Run.catchWith, Run.andThen, h, Run.console, Run.commit, Run.emit,
      Run.ret, hc]

/-- Claim C5, as stated, fails for `deleteCollection`: the mutation it commits
carries the `collection_summary` argument, here the summary of collection
`c2`, and not the id `c1` that was passed and sent to the server. -/
theorem deleteCollection_payload_counterexample :
    exampleDeleteCollection.requests.map (fun r => r.1.href)
      = ["http://localhost:5001/collections/c1"] ∧
    exampleDeleteCollection.commits
      = [("deleteFromCollectionList", obj [("collection_id", str "c2")])] ∧
    exampleDeleteCollection.commits ≠ [("deleteFromCollectionList", str "c1")] := by
  refine ⟨rfl, rfl, ?_⟩
  have h : exampleDeleteCollection.commits
      = [("deleteFromCollectionList", obj [("collection_id", str "c2")])] := rfl
  rw [h]
  simp

/-- Claim C5, amended: each delete operation dispatches exactly one request,
whatever the store holds (`deleteSample`, `deleteStartingMaterial` and
`deleteEquipment` post the id to `/delete-sample/`, `deleteCollection` sends
`DELETE` to `/collections/<id>`), and when that request resolves it commits
exactly one mutation, to its own list: for the three item operations the
payload is the id that was passed, for `deleteCollection` it is the
`collection_summary` argument. -/
theorem delete_operations (env : Env) (item_id collection_id collection_summary : JSVal) :
    ((deleteSample env item_id).requests =
        [(URL.ofString (env.API_URL ++ "/delete-sample/"),
          { method := "POST",
            headers := construct_headers env (some [("Content-Type", "application/json")]),
            body := some (obj [("item_id", item_id)]), credentials := "include" })] ∧
      ∀ v, (fetch_post env (URL.ofString (env.API_URL ++ "/delete-sample/"))
          (obj [("item_id", item_id)])).result = .ok v →
        (deleteSample env item_id).commits = [("deleteFromSampleList", item_id)]) ∧
    ((deleteStartingMaterial env item_id).requests =
        [(URL.ofString (env.API_URL ++ "/delete-sample/"),
          { method := "POST",
            headers := construct_headers env (some [("Content-Type", "application/json")]),
            body := some (obj [("item_id", item_id)]), credentials := "include" })] ∧
      ∀ v, (fetch_post env (URL.ofString (env.API_URL ++ "/delete-sample/"))
          (obj [("item_id", item_id)])).result = .ok v →
        (deleteStartingMaterial env item_id).commits
          = [("deleteFromStartingMaterialList", item_id)]) ∧
    ((deleteEquipment env item_id).requests =
        [(URL.ofString (env.API_URL ++ "/delete-sample/"),
          { method := "POST",
            headers := construct_headers env (some [("Content-Type", "application/json")]),
            body := some (obj [("item_id", item_id)]), credentials := "include" })] ∧
      ∀ v, (fetch_post env (URL.ofString (env.API_URL ++ "/delete-sample/"))
          (obj [("item_id", item_id)])).result = .ok v →
        (deleteEquipment env item_id).commits = [("deleteFromEquipmentList", item_id)]) ∧
    ((deleteCollection env collection_id collection_summary).requests =
        [(URL.ofString (env.API_URL ++ "/collections/" ++ toJSString collection_id),
          { method := "DELETE",
            headers := construct_headers env (some [("Content-Type", "application/json")]),
            body := some undefined, credentials := "include" })] ∧
      ∀ v, (fetch_delete env
          (URL.ofString (env.API_URL ++ "/collections/" ++ toJSString collection_id))
          undefined).result = .ok v →
        (deleteCollection env collection_id collection_summary).commits
          = [("deleteFromCollectionList", collection_summary)]) := by
  refine ⟨?_, ?_, ?_, ?_⟩
  · have h := delete_shape
      (fetch_post env (URL.ofString (env.API_URL ++ "/delete-sample/"))
        (obj [("item_id", item_id)]))
      "deleteFromSampleList" item_id (deleteItemAlert item_id) (dispatch_commits _ _ _)
    exact ⟨h.1.trans (dispatch_requests _ _ _), h.2⟩
  · have h := delete_shape
      (fetch_post env (URL.ofString (env.API_URL ++ "/delete-sample/"))
        (obj [("item_id", item_id)]))
      "deleteFromStartingMaterialList" item_id (deleteItemAlert item_id) (dispatch_commits _ _ _)
    exact ⟨h.1.trans (dispatch_requests _ _ _), h.2⟩
  · have h := delete_shape
      (fetch_post env (URL.ofString (env.API_URL ++ "/delete-sample/"))
        (obj [("item_id", item_id)]))
      "deleteFromEquipmentList" item_id (deleteItemAlert item_id) (dispatch_commits _ _ _)
    exact ⟨h.1.trans (dispatch_requests _ _ _), h.2⟩
  · have h := delete_shape
      (fetch_delete env
        (URL.ofString (env.API_URL ++ "/collections/" ++ toJSString collection_id)) undefined)
      "deleteFromCollectionList" collection_summary
      ("Unable to delete collection with ID \x27" ++ toJSString collection_id ++
        "\x27: check that you have the appropriate permissions.") (dispatch_commits _ _ _)
    exact ⟨h.1.trans (dispatch_requests _ _ _), h.2⟩

/-- Claim C5, amended, at a server that reports success: `deleteSample("s1")`
removes `s1` from the sample list, and `exampleDeleteCollection` commits the
summary it was given. -/
theorem delete_operations_witness :
    (deleteSample (exampleEnv (.ok successResponse)) (str "s1")).commits
      = [("deleteFromSampleList", str "s1")] ∧
    exampleDeleteCollection.commits
      = [("deleteFromCollectionList", obj [("collection_id", str "c2")])] :=
  ⟨(delete_operations (exampleEnv (.ok successResponse)) (str "s1") (str "c1")
      (obj [("collection_id", str "c2")])).1.2 (obj [("status", str "success")]) rfl,
   (delete_operations (exampleEnv (.ok successResponse)) (str "s1") (str "c1")
      (obj [("collection_id", str "c2")])).2.2.2.2 (obj [("status", str "success")]) rfl⟩

/-! ## `updateBlockFromServer` -/

/-- The three `delete` statements leave the properties that the specification
asks to transmit. -/
theorem deleteField_thrice (block_data : List (String × JSVal)) :
    deleteField "metadata" (deleteField "processed_data"
      (deleteField "bokeh_plot_data" block_data)) = transmittedBlockData block_data := by
  simp only [deleteField, transmittedBlockData, strippedKeys, List.filter_filter]
  congr 1
  funext kv
  by_cases h1 : kv.1 = "bokeh_plot_data" <;> by_cases h2 : kv.1 = "processed_data" <;>
    by_cases h3 : kv.1 = "metadata" <;> simp [h1, h2, h3]

theorem lookup_filter_key (keep : String → Bool) (k : String) (fields : List (String × JSVal)) :
    (fields.filter (fun kv => keep kv.1)).lookup k
      = if keep k then fields.lookup k else none := by
  induction fields with
  | nil => simp
  | cons kv rest ih =>
    obtain ⟨k1, v1⟩ := kv
    by_cases hk : keep k1 = true
    · by_cases hkk : k = k1
      · subst hkk
        simp [List.filter_cons, hk, List.lookup_cons]
      · have : (k == k1) = false := by simpa using hkk
        simp [List.filter_cons, hk, List.lookup_cons, this, ih]
    · by_cases hkk : k = k1
      · subst hkk
        simp [List.filter_cons, hk, ih]
      · have : (k == k1) = false := by simpa using hkk
        simp [List.filter_cons, hk, List.lookup_cons, this, ih]

/-- On a value that is not `null` or `undefined` the three `delete`
statements do not throw and leave `sentBlockData`. -/
theorem deleteProp_thrice {α : Type} (block_data : JSVal) (f : JSVal → Run α)
    (hb : block_data.isNullish = false) :
    (Run.eval (deleteProp "bokeh_plot_data" block_data) >>= fun b1 =>
      Run.eval (deleteProp "processed_data" b1) >>= fun b2 =>
        Run.eval (deleteProp "metadata" b2) >>= fun b3 => f b3) = f (sentBlockData block_data) := by
  cases block_data <;>
    simp_all [JSVal.isNullish, deleteProp, sentBlockData, Run.eval, Run.andThen,
      deleteField_thrice]

/-- On `null` and `undefined` the first `delete` statement throws. -/
theorem deleteProp_nullish (block_data : JSVal) (hb : block_data.isNullish = true) :
    deleteProp "bokeh_plot_data" block_data
      = .error (error "TypeError" "Cannot convert undefined or null to object") := by
  cases block_data <;> simp_all [JSVal.isNullish, deleteProp]

/-- The effects of `updateBlockFromServer`, by the outcome of its request. -/
theorem updateBlockFromServer_trace (env : Env)
    (item_id block_id block_data saveToDatabase : JSVal)
    (hb : block_data.isNullish = false) :
    (updateBlockFromServer env item_id block_id block_data saveToDatabase).result
      = .ok undefined ∧
    (updateBlockFromServer env item_id block_id block_data saveToDatabase).trace =
      .commit "setBlockUpdating" block_id ::
        ((updateBlockRequest env item_id block_id block_data saveToDatabase).trace ++
          match (updateBlockRequest env item_id block_id block_data saveToDatabase).result with
          | .ok v =>
            if v.isNullish then
              [.console "warn",
               .commit "setBlockImplementationError"
                 (obj [("block_id", block_id), ("hasError", bool true)]),
               .commit "setBlockNotUpdating" block_id]
            else
              [.commit "updateBlockData"
                 (obj [("item_id", item_id), ("block_id", block_id),
                       ("block_data", v.field "new_block_data")]),
               .commit "setBlockNotUpdating" block_id,
               .commit "setBlockSaved"
                 (obj [("block_id", block_id), ("isSaved", v.field "saved_successfully")]),
               .commit "setBlockImplementationError"
                 (obj [("block_id", block_id), ("hasError", bool false)])]
          | .error _ =>
            [.console "warn",
             .commit "setBlockImplementationError"
               (obj [("block_id", block_id), ("hasError", bool true)]),
             .commit "setBlockNotUpdating" block_id]) := by
  simp only [updateBlockFromServer, updateBlockRequest, deleteProp_thrice _ _ hb]
  cases h : (fetch_post env (URL.ofString (env.API_URL ++ "/update-block/"))
    (updateBlockBody item_id block_id (sentBlockData block_data)
      (orDefault saveToDatabase (bool true)))).result with
  | error e =>
    simp [Run.catchWith, Run.andThen, h, Run.console, Run.commit, Run.emit, Run.ret]
  | ok v =>
    cases v <;>
      simp [Run.catchWith, Run.andThen, h, Run.console, Run.commit, Run.emit, Run.ret, Run.eval,
        JSVal.prop, JSVal.field, JSVal.isNullish]

/-- The mutations of `updateBlockFromServer`, by the outcome of its request. -/
theorem updateBlockFromServer_commits (env : Env)
    (item_id block_id block_data saveToDatabase : JSVal)
    (hb : block_data.isNullish = false) :
    (updateBlockFromServer env item_id block_id block_data saveToDatabase).commits =
      ("setBlockUpdating", block_id) ::
        match (updateBlockRequest env item_id block_id block_data saveToDatabase).result with
        | .ok v =>
          if v.isNullish then
            [("setBlockImplementationError",
               obj [("block_id", block_id), ("hasError", bool true)]),
             ("setBlockNotUpdating", block_id)]
          else
            [("updateBlockData",
               obj [("item_id", item_id), ("block_id", block_id),
                    ("block_data", v.field "new_block_data")]),
             ("setBlockNotUpdating", block_id),
             ("setBlockSaved",
               obj [("block_id", block_id), ("isSaved", v.field "saved_successfully")]),
             ("setBlockImplementationError",
               obj [("block_id", block_id), ("hasError", bool false)])]
        | .error _ =>
          [("setBlockImplementationError",
             obj [("block_id", block_id), ("hasError", bool true)]),
           ("setBlockNotUpdating", block_id)] := by
  have hc : (updateBlockRequest env item_id block_id block_data saveToDatabase).commits = [] :=
    dispatch_commits _ _ _
  simp only [Run.commits] at hc
  simp only [Run.commits, (updateBlockFromServer_trace env item_id block_id block_data
    saveToDatabase hb).2, List.filterMap_cons, List.filterMap_append, hc, List.nil_append]
  cases (updateBlockRequest env item_id block_id block_data saveToDatabase).result with
  | error e => simp
  | ok v => by_cases hv : v.isNullish = true <;> simp [hv]

/-- Claim C6: the single request of `updateBlockFromServer` carries as
`block_data` the input without the keys `bokeh_plot_data`, `processed_data`
and `metadata`: none of the three occurs in it, whether or not it was in the
input, and every other key is there exactly as in the input, with the same
value. -/
theorem updateBlockFromServer_strips (env : Env) (item_id block_id : JSVal)
    (block_data : List (String × JSVal)) (saveToDatabase : JSVal) :
    (updateBlockFromServer env item_id block_id (obj block_data) saveToDatabase).requests =
      [(URL.ofString (env.API_URL ++ "/update-block/"),
        { method := "POST",
          headers := construct_headers env (some [("Content-Type", "application/json")]),
          body := some (updateBlockBody item_id block_id (obj (transmittedBlockData block_data))
            (orDefault saveToDatabase (bool true))),
          credentials := "include" })] ∧
    (updateBlockBody item_id block_id (obj (transmittedBlockData block_data))
        (orDefault saveToDatabase (bool true))).prop "block_data"
      = .ok (obj (transmittedBlockData block_data)) ∧
    (∀ k, k ∈ strippedKeys →
      (transmittedBlockData block_data).lookup k = none ∧
      ∀ v, (k, v) ∉ transmittedBlockData block_data) ∧
    (∀ k, k ∉ strippedKeys →
      (transmittedBlockData block_data).lookup k = block_data.lookup k ∧
      ∀ v, ((k, v) ∈ transmittedBlockData block_data ↔ (k, v) ∈ block_data)) := by
  refine ⟨?_, ?_, ?_, ?_⟩
  · have hr := dispatch_requests env (URL.ofString (env.API_URL ++ "/update-block/"))
      { method := "POST",
        headers := construct_headers env (some [("Content-Type", "application/json")]),
        body := some (updateBlockBody item_id block_id (obj (transmittedBlockData block_data))
          (orDefault saveToDatabase (bool true))),
        credentials := "include" }
    simp only [Run.requests] at hr
    simp only [Run.requests, (updateBlockFromServer_trace env item_id block_id (obj block_data)
      saveToDatabase rfl).2, List.filterMap_cons, List.filterMap_append]
    simp only [updateBlockRequest, sentBlockData, fetch_post, hr]
    cases (dispatch env (URL.ofString (env.API_URL ++ "/update-block/"))
      { method := "POST",
        headers := construct_headers env (some [("Content-Type", "application/json")]),
        body := some (updateBlockBody item_id block_id (obj (transmittedBlockData block_data))
          (orDefault saveToDatabase (bool true))),
        credentials := "include" }).result with
    | error e => simp
    | ok v => by_cases hv : v.isNullish = true <;> simp [hv]
  · simp [updateBlockBody, JSVal.prop, List.lookup]
  · intro k hk
    constructor
    · rw [transmittedBlockData, lookup_filter_key (fun k => !strippedKeys.contains k)]
      simp [hk]
    · intro v hmem
      simp only [transmittedBlockData, List.mem_filter] at hmem
      simp [hk] at hmem
  · intro k hk
    constructor
    · rw [transmittedBlockData, lookup_filter_key (fun k => !strippedKeys.contains k)]
      simp [hk]
    · intro v
      simp [transmittedBlockData, List.mem_filter, hk]

/-- Claim C6 at `exampleBlockUpdate`: of the plot data, the title and the
metadata of `exampleBlock`, only the title is sent. -/
theorem updateBlockFromServer_strips_witness :
    exampleBlockUpdate.requests.map (fun r => r.2.body) =
      [some (obj [("item_id", str "s1"), ("block_id", str "b1"),
                  ("block_data", obj [("title", str "XRD")]),
                  ("save_to_db", bool true)])] ∧
    (transmittedBlockData exampleBlock).lookup "metadata" = none ∧
    (transmittedBlockData exampleBlock).lookup "title" = exampleBlock.lookup "title" :=
  ⟨rfl,
   ((updateBlockFromServer_strips (exampleEnv (.ok blockUpdatedResponse)) (str "s1") (str "b1")
      exampleBlock undefined).2.2.1 "metadata" (by simp [strippedKeys])).1,
   ((updateBlockFromServer_strips (exampleEnv (.ok blockUpdatedResponse)) (str "s1") (str "b1")
      exampleBlock undefined).2.2.2 "title" (by simp [strippedKeys])).1⟩

/-- Claim C7, as stated, fails: a call whose `block_data` is `null` throws at
the first `delete` statement, so its promise rejects, and nothing has been
committed or dispatched: the block was never marked updating. -/
theorem updateBlockFromServer_null_counterexample :
    (updateBlockFromServer (exampleEnv (.ok blockUpdatedResponse)) (str "s1") (str "b1") null
        undefined).result
      = .error (error "TypeError" "Cannot convert undefined or null to object") ∧
    (updateBlockFromServer (exampleEnv (.ok blockUpdatedResponse)) (str "s1") (str "b1") null
        undefined).trace = [] ∧
    (updateBlockFromServer (exampleEnv (.ok blockUpdatedResponse)) (str "s1") (str "b1") null
        undefined).rejects = true :=
  ⟨rfl, rfl, rfl⟩

/-- Claim C7, amended.  For a `block_data` that is not `null` or `undefined`,
`updateBlockFromServer` commits `setBlockUpdating` for the block and then
dispatches its request; whatever the outcome of the request, the last
mutation that sets or clears the updating mark is `setBlockNotUpdating` for
the block; the implementation-error flag is committed once, as `false` when
the request resolves (with a payload whose properties can be read) and as
`true` when the request rejects (or resolves with `null`); and the promise of
the operation resolves.  For a `block_data` that is `null` or `undefined` the
promise rejects with a `TypeError` and nothing is committed or dispatched. -/
theorem updateBlockFromServer_marks (env : Env)
    (item_id block_id block_data saveToDatabase : JSVal) :
    (block_data.isNullish = false →
      (∃ rest, (updateBlockFromServer env item_id block_id block_data saveToDatabase).trace =
        .commit "setBlockUpdating" block_id ::
        .fetch (URL.ofString (env.API_URL ++ "/update-block/"))
          { method := "POST",
            headers := construct_headers env (some [("Content-Type", "application/json")]),
            body := some (updateBlockBody item_id block_id (sentBlockData block_data)
              (orDefault saveToDatabase (bool true))),
            credentials := "include" } :: rest) ∧
      (updatingMarks (updateBlockFromServer env item_id block_id block_data
        saveToDatabase)).getLast? = some ("setBlockNotUpdating", block_id) ∧
      (∀ v, (updateBlockRequest env item_id block_id block_data saveToDatabase).result = .ok v →
        v.isNullish = false →
        errorFlags (updateBlockFromServer env item_id block_id block_data saveToDatabase) =
          [("setBlockImplementationError",
            obj [("block_id", block_id), ("hasError", bool false)])]) ∧
      (∀ e,
        (updateBlockRequest env item_id block_id block_data saveToDatabase).result = .error e →
        errorFlags (updateBlockFromServer env item_id block_id block_data saveToDatabase) =
          [("setBlockImplementationError",
            obj [("block_id", block_id), ("hasError", bool true)])]) ∧
      (∀ v, (updateBlockRequest env item_id block_id block_data saveToDatabase).result = .ok v →
        v.isNullish = true →
        errorFlags (updateBlockFromServer env item_id block_id block_data saveToDatabase) =
          [("setBlockImplementationError",
            obj [("block_id", block_id), ("hasError", bool true)])]) ∧
      (updateBlockFromServer env item_id block_id block_data saveToDatabase).result
        = .ok undefined) ∧
    (block_data.isNullish = true →
      (updateBlockFromServer env item_id block_id block_data saveToDatabase).result
        = .error (error "TypeError" "Cannot convert undefined or null to object") ∧
      (updateBlockFromServer env item_id block_id block_data saveToDatabase).trace = []) := by
  refine ⟨fun hb => ⟨?_, ?_, ?_, ?_, ?_, ?_⟩, fun hb => ?_⟩
  · rw [(updateBlockFromServer_trace env item_id block_id block_data saveToDatabase hb).2]
    simp only [updateBlockRequest, fetch_post, dispatch_trace, List.cons_append]
    exact ⟨_, rfl⟩
  · rw [updatingMarks, updateBlockFromServer_commits _ _ _ _ _ hb]
    cases (updateBlockRequest env item_id block_id block_data saveToDatabase).result with
    | error e => simp [List.filter_cons]
    | ok v => by_cases hv : v.isNullish = true <;> simp [hv, List.filter_cons]
  · intro v h hv
    rw [errorFlags, updateBlockFromServer_commits _ _ _ _ _ hb, h]
    simp [hv, List.filter_cons]
  · intro e h
    rw [errorFlags, updateBlockFromServer_commits _ _ _ _ _ hb, h]
    simp [List.filter_cons]
  · intro v h hv
    rw [errorFlags, updateBlockFromServer_commits _ _ _ _ _ hb, h]
    simp [hv, List.filter_cons]
  · exact (updateBlockFromServer_trace env item_id block_id block_data saveToDatabase hb).1
  · simp [updateBlockFromServer, Run.andThen, Run.eval, deleteProp_nullish _ hb]

/-- Claim C7, amended, at `exampleBlockUpdate`, whose request resolves, at
`exampleBlockUpdateFailed`, whose request rejects, at
`exampleBlockUpdateNull`, whose request resolves with `null`, and at a call
without block data. -/
theorem updateBlockFromServer_marks_witness :
    errorFlags exampleBlockUpdate =
      [("setBlockImplementationError",
        obj [("block_id", str "b1"), ("hasError", bool false)])] ∧
    errorFlags exampleBlockUpdateFailed =
      [("setBlockImplementationError",
        obj [("block_id", str "b1"), ("hasError", bool true)])] ∧
    errorFlags exampleBlockUpdateNull =
      [("setBlockImplementationError",
        obj [("block_id", str "b1"), ("hasError", bool true)])] ∧
    exampleBlockUpdate.commits.map (fun c => c.1) =
      ["setBlockUpdating", "updateBlockData", "setBlockNotUpdating", "setBlockSaved",
       "setBlockImplementationError"] ∧
    exampleBlockUpdateFailed.commits.map (fun c => c.1) =
      ["setBlockUpdating", "setBlockImplementationError", "setBlockNotUpdating"] ∧
    (updateBlockFromServer (exampleEnv (.ok blockUpdatedResponse)) (str "s1") (str "b1")
      undefined undefined).trace = [] :=
  ⟨((updateBlockFromServer_marks (exampleEnv (.ok blockUpdatedResponse)) (str "s1") (str "b1")
      (obj exampleBlock) undefined).1 rfl).2.2.1
      (obj [("new_block_data", obj []), ("saved_successfully", bool true)]) rfl rfl,
   ((updateBlockFromServer_marks (exampleEnv (.error (error "TypeError" "Failed to fetch")))
      (str "s1") (str "b1") (obj exampleBlock) undefined).1 rfl).2.2.2.1
      (error "TypeError" "Failed to fetch") rfl,
   ((updateBlockFromServer_marks (exampleEnv (.ok nullBodyResponse)) (str "s1") (str "b1")
      (obj exampleBlock) undefined).1 rfl).2.2.2.2.1 null rfl rfl,
   rfl, rfl,
   ((updateBlockFromServer_marks (exampleEnv (.ok blockUpdatedResponse)) (str "s1") (str "b1")
      undefined undefined).2 rfl).2⟩

/-! ## `searchItems` -/

theorem intercalate_go_eq (acc : String) (types : List String) :
    String.intercalate.go acc "," types
      = acc ++ ((match types with | [] => "" | _ => ",") ++ joinItems (types.map str)) := by
  induction types generalizing acc with
  | nil => simp [String.intercalate.go, joinItems]
  | cons a rest ih =>
    rw [String.intercalate.go, ih]
    cases rest with
    | nil => simp [joinItems, toJSString, String.append_assoc]
    | cons b rest => simp [joinItems, toJSString, String.append_assoc]

/-- An array of strings prints as the strings separated by commas. -/
theorem toJSString_strings (types : List String) :
    toJSString (arr (types.map str)) = String.intercalate "," types := by
  cases types with
  | nil => simp [toJSString, joinItems, String.intercalate]
  | cons a rest =>
    rw [String.intercalate, intercalate_go_eq]
    cases rest with
    | nil => simp [joinItems, toJSString]
    | cons b rest => simp [joinItems, toJSString, String.append_assoc]

/-- The request and the result of `searchItems` for arbitrary arguments. -/
theorem searchItems_spec (env : Env) (query nresults types : JSVal) :
    (searchItems env query nresults types).requests =
      [({ href := env.API_URL ++ "/search-items/",
          searchParams := [("query", toJSString query),
                           ("nresults", toJSString (orDefault nresults (num SafeInt.hundred))),
                           ("types", toJSString (orDefault types null))] },
        getOptions env)] ∧
    ∀ v items,
      (fetch_get env
        { href := env.API_URL ++ "/search-items/",
          searchParams := [("query", toJSString query),
                           ("nresults", toJSString (orDefault nresults (num SafeInt.hundred))),
                           ("types", toJSString (orDefault types null))] }).result = .ok v →
      v.prop "items" = .ok items →
      (searchItems env query nresults types).result = .ok items := by
  have hr := dispatch_requests env
    { href := env.API_URL ++ "/search-items/",
      searchParams := [("query", toJSString query),
                       ("nresults", toJSString (orDefault nresults (num SafeInt.hundred))),
                       ("types", toJSString (orDefault types null))] } (getOptions env)
  simp only [Run.requests] at hr
  unfold searchItems fetch_get
  constructor
  · cases h : (dispatch env
      { href := env.API_URL ++ "/search-items/",
        searchParams := [("query", toJSString query),
                         ("nresults", toJSString (orDefault nresults (num SafeInt.hundred))),
                         ("types", toJSString (orDefault types null))] }
      { method := "GET", headers := construct_headers env none, body := none,
        credentials := "include" }).result with
    | error e =>
      simp [Run.requests, Run.andThen, h, Run.console, Run.emit, Run.eval]
      simpa [getOptions] using hr
    | ok v =>
      simp [Run.requests, Run.andThen, h, Run.console, Run.emit, Run.eval]
      simpa [getOptions] using hr
  · intro v items h hitems
    simp [Run.andThen, h, hitems, Run.console, Run.emit, Run.eval]

/-- Claim C8: for a query, a number of results (a safe integer, printed in
decimal) and a list of type names,
`searchItems` issues one `GET` request to `/search-items/` whose parameters
are `query`, `nresults` and `types`, in that order and with the given values;
`nresults` is `100` when the argument is omitted; and when the request
resolves with a payload that has an `items` field, `searchItems` resolves
with that field. -/
theorem searchItems_request (env : Env) (query : String) (nresults : SafeInt)
    (types : List String) :
    (searchItems env (str query) (num nresults) (arr (types.map str))).requests =
      [(searchItemsTarget env query (toString nresults.val) types, getOptions env)] ∧
    (searchItems env (str query) undefined (arr (types.map str))).requests =
      [(searchItemsTarget env query "100" types, getOptions env)] ∧
    (∀ v items,
      (fetch_get env (searchItemsTarget env query (toString nresults.val) types)).result = .ok v →
      v.prop "items" = .ok items →
      (searchItems env (str query) (num nresults) (arr (types.map str))).result = .ok items) ∧
    (∀ v items,
      (fetch_get env (searchItemsTarget env query "100" types)).result = .ok v →
      v.prop "items" = .ok items →
      (searchItems env (str query) undefined (arr (types.map str))).result = .ok items) := by
  have h1 := searchItems_spec env (str query) (num nresults) (arr (types.map str))
  have h2 := searchItems_spec env (str query) undefined (arr (types.map str))
  have e1 : toJSString (orDefault (arr (types.map str)) null) = String.intercalate "," types :=
    toJSString_strings types
  have e2 : toJSString (orDefault (num nresults) (num SafeInt.hundred)) = toString nresults.val := by
    simp [orDefault, toJSString]
  have e3 : toJSString (orDefault undefined (num SafeInt.hundred)) = "100" := by
    simp [orDefault, toJSString]; rfl
  have e4 : toJSString (str query) = query := by simp [toJSString]
  rw [e1, e2, e4] at h1
  rw [e1, e3, e4] at h2
  exact ⟨h1.1, h2.1, h1.2, h2.2⟩

/-- Claim C8 at the scenario of the specification, `exampleSearch`: the
parameters are `query=foo`, `nresults=50`, `types=samples`, and the call
resolves with the `items` of the response. -/
theorem searchItems_request_witness :
    exampleSearch.requests.map (fun r => (r.1.href, r.1.searchParams, r.2.method)) =
      [("http://localhost:5001/search-items/",
        [("query", "foo"), ("nresults", "50"), ("types", "samples")], "GET")] ∧
    exampleSearch.result = .ok (arr []) :=
  ⟨rfl,
   (searchItems_request (exampleEnv (.ok noItemsResponse)) "foo" SafeInt.fifty ["samples"]).2.2.1
     (obj [("items", arr [])]) (arr []) rfl rfl⟩

/-! ## `updateItemPermissions` -/

/-- Claim C9: when the request of `updateItemPermissions` resolves (the HTTP
response is a success) with a payload whose `status` is `"error"`, the
promise rejects with `new Error(payload.message)`, an error whose message is
the `message` field of the payload when that is a string; when the request
resolves with a payload whose `status` is anything else, the promise resolves
with the payload itself. -/
theorem updateItemPermissions_payload_status (env : Env) (refcode creators : JSVal) :
    (∀ payload message,
      (permissionsRequest env refcode creators).result = .ok payload →
      payload.prop "status" = .ok (str "error") →
      payload.prop "message" = .ok message →
      (updateItemPermissions env refcode creators).result = .error (newError message)) ∧
    (∀ payload text,
      (permissionsRequest env refcode creators).result = .ok payload →
      payload.prop "status" = .ok (str "error") →
      payload.prop "message" = .ok (str text) →
      (updateItemPermissions env refcode creators).result = .error (error "Error" text)) ∧
    (∀ payload status,
      (permissionsRequest env refcode creators).result = .ok payload →
      payload.prop "status" = .ok status →
      status ≠ str "error" →
      (updateItemPermissions env refcode creators).result = .ok payload) := by
  unfold permissionsRequest updateItemPermissions
  refine ⟨?_, ?_, ?_⟩
  · intro payload message hp hs hm
    simp [Run.andThen, hp, hs, hm, Run.console, Run.emit, Run.eval, Run.reject,
      JSVal.isString]
  · intro payload text hp hs hm
    simp [Run.andThen, hp, hs, hm, Run.console, Run.emit, Run.eval, Run.reject,
      JSVal.isString, newError, toJSString]
  · intro payload status hp hs hne
    have hb : status.isString "error" = false := by
      cases hb : status.isString "error"
      · rfl
      · exact absurd ((JSVal.isString_iff status _).1 hb) hne
    simp [Run.andThen, hp, hs, hb, Run.console, Run.emit, Run.eval, Run.ret]

/-- Claim C9 at the scenario of the specification, `examplePermissions`: HTTP
success with a payload of `status` `"error"` and `message` `"no access"`
rejects with an error whose message is `no access`. -/
theorem updateItemPermissions_payload_status_witness :
    noAccessResponse.ok = true ∧
    examplePermissions.result = .error (error "Error" "no access") :=
  ⟨rfl,
   (updateItemPermissions_payload_status (exampleEnv (.ok noAccessResponse)) (str "ABCDEF")
      (arr [])).2.1 (obj [("status", str "error"), ("message", str "no access")]) "no access"
      rfl rfl rfl⟩

/-! ## `getItemGraph` -/

/-- The requests of `getItemGraph` are those of its `fetch_get` call. -/
theorem graph_shape_requests (p : Run JSVal) :
    ((p >>= fun response_json => do
        Run.console "log"
        let nodes ← Run.eval (response_json.prop "nodes")
        let edges ← Run.eval (response_json.prop "edges")
        Run.commit "setItemGraph" (obj [("nodes", nodes), ("edges", edges)])
        pure undefined).catchWith fun error =>
      pure (str ("getItemGraph unsuccessful. Error: " ++ toJSString error))).requests
      = p.requests := by
  cases h : p.result with
  | error e => simp [Run.requests, Run.catchWith, Run.andThen, h, Run.ret]
  | ok v =>
    cases v <;>
      simp [Run.requests, Run.catchWith, Run.andThen, h, Run.ret, Run.console, Run.emit,
        Run.eval, Run.commit, JSVal.prop]

/-- Claim C10, as stated, fails: with both an item and a collection the
requested URL is `/item-graph/X?collection_id=Y`, which is not the URL
`/item-graph/X` requested for the item alone. -/
theorem getItemGraph_both_counterexample :
    (getItemGraph (exampleEnv (.ok successResponse)) (str "X") (str "Y")).requests.map
        (fun r => r.1.href) = ["http://localhost:5001/item-graph/X?collection_id=Y"] ∧
    (getItemGraph (exampleEnv (.ok successResponse)) (str "X") undefined).requests.map
        (fun r => r.1.href) = ["http://localhost:5001/item-graph/X"] ∧
    (getItemGraph (exampleEnv (.ok successResponse)) (str "X") (str "Y")).requests.map
        (fun r => r.1.href) ≠
      (getItemGraph (exampleEnv (.ok successResponse)) (str "X") undefined).requests.map
        (fun r => r.1.href) := by
  have h1 : (getItemGraph (exampleEnv (.ok successResponse)) (str "X") (str "Y")).requests.map
      (fun r => r.1.href) = ["http://localhost:5001/item-graph/X?collection_id=Y"] := rfl
  have h2 : (getItemGraph (exampleEnv (.ok successResponse)) (str "X") undefined).requests.map
      (fun r => r.1.href) = ["http://localhost:5001/item-graph/X"] := rfl
  refine ⟨h1, h2, ?_⟩
  rw [h1, h2]
  decide

/-- Claim C10, amended: for an item id `X` and a collection id `Y`,
`getItemGraph` with the item alone requests `<API_URL>/item-graph/X`, with
the collection alone `<API_URL>/item-graph?collection_id=Y`, and with both
`<API_URL>/item-graph/X?collection_id=Y`: the path of the item followed by the
query parameter of the collection. -/
theorem getItemGraph_urls (env : Env) (X Y : String) :
    (getItemGraph env (str X) undefined).requests =
      [(URL.ofString (env.API_URL ++ "/item-graph/" ++ X), getOptions env)] ∧
    (getItemGraph env undefined (str Y)).requests =
      [(URL.ofString (env.API_URL ++ "/item-graph?collection_id=" ++ Y), getOptions env)] ∧
    (getItemGraph env (str X) (str Y)).requests =
      [(URL.ofString (env.API_URL ++ "/item-graph/" ++ X ++ "?collection_id=" ++ Y),
        getOptions env)] := by
  have e1 : env.API_URL ++ "/item-graph" ++ "/" = env.API_URL ++ "/item-graph/" := by
    rw [String.append_assoc]; rfl
  have e2 : env.API_URL ++ "/item-graph" ++ "?collection_id="
      = env.API_URL ++ "/item-graph?collection_id=" := by
    rw [String.append_assoc]; rfl
  refine ⟨?_, ?_, ?_⟩
  · simp only [getItemGraph, orDefault, JSVal.isNullish, toJSString]
    rw [graph_shape_requests]
    simp [fetch_get, dispatch_requests, getOptions, e1]
  · simp only [getItemGraph, orDefault, JSVal.isNullish, toJSString]
    rw [graph_shape_requests]
    simp [fetch_get, dispatch_requests, getOptions, e2]
  · simp only [getItemGraph, orDefault, JSVal.isNullish, toJSString]
    rw [graph_shape_requests]
    simp [fetch_get, dispatch_requests, getOptions, e1]

/-! ## `searchItems` without `types` -/

/-- Claim C14: for every query and number of results, `searchItems` called
without `types`, or with `types` equal to `null`, still sends three
parameters: after `query` and `nresults` comes a `types` parameter whose
value is the text `null`. -/
theorem searchItems_types_null (env : Env) (query nresults : JSVal) :
    (searchItems env query nresults undefined).requests =
      [({ href := env.API_URL ++ "/search-items/",
          searchParams := [("query", toJSString query),
                           ("nresults", toJSString (orDefault nresults (num SafeInt.hundred))),
                           ("types", "null")] },
        getOptions env)] ∧
    (searchItems env query nresults null).requests =
      [({ href := env.API_URL ++ "/search-items/",
          searchParams := [("query", toJSString query),
                           ("nresults", toJSString (orDefault nresults (num SafeInt.hundred))),
                           ("types", "null")] },
        getOptions env)] ∧
    (searchItems env query nresults undefined).requests.map
      (fun r => r.1.searchParams.length) = [3] ∧
    (searchItems env query nresults null).requests.map
      (fun r => r.1.searchParams.length) = [3] := by
  have h1 := (searchItems_spec env query nresults undefined).1
  have h2 := (searchItems_spec env query nresults null).1
  have e1 : toJSString (orDefault undefined null) = "null" := rfl
  have e2 : toJSString (orDefault null null) = "null" := rfl
  rw [e1] at h1
  rw [e2] at h2
  refine ⟨h1, h2, ?_, ?_⟩
  · rw [h1]; rfl
  · rw [h2]; rfl

/-! ## `construct_headers` and the request options -/

theorem lookup_setHeader (key value k : String) (headers : List (String × String)) :
    (setHeader key value headers).lookup k
      = if k = key then some value else headers.lookup k := by
  induction headers with
  | nil =>
    by_cases hk : k = key
    · simp [setHeader, List.lookup, hk]
    · have : (k == key) = false := by simpa using hk
      simp [setHeader, List.lookup, hk, this]
  | cons kv rest ih =>
    obtain ⟨k1, v1⟩ := kv
    by_cases h1 : k1 = key
    · subst h1
      by_cases hk : k = k1
      · simp [setHeader, List.lookup, hk]
      · have : (k == k1) = false := by simpa using hk
        simp [setHeader, List.lookup, hk, this]
    · by_cases hk : k = k1
      · subst hk
        simp [setHeader, List.lookup, h1]
      · have : (k == k1) = false := by simpa using hk
        simp [setHeader, List.lookup, h1, this, ih]

theorem mem_setHeader (key value k v : String) (headers : List (String × String))
    (hk : k ≠ key) : (k, v) ∈ setHeader key value headers ↔ (k, v) ∈ headers := by
  induction headers with
  | nil => simp [setHeader, hk]
  | cons kv rest ih =>
    obtain ⟨k1, v1⟩ := kv
    by_cases h1 : k1 = key
    · subst h1
      simp [setHeader, hk]
    · simp [setHeader, h1, ih]

/-- Claim C12, as stated, fails: with a configured token, a caller-supplied
`Authorization` header is not in the result; the token has replaced it. -/
theorem construct_headers_override_counterexample :
    tokenEnv.API_TOKEN = some "secret-token" ∧
    construct_headers tokenEnv (some [("Authorization", "Bearer abc"), ("Accept", "text/csv")])
      = [("Authorization", "secret-token"), ("Accept", "text/csv")] ∧
    ("Authorization", "Bearer abc") ∉
      construct_headers tokenEnv (some [("Authorization", "Bearer abc"), ("Accept", "text/csv")]) := by
  refine ⟨rfl, rfl, ?_⟩
  have h : construct_headers tokenEnv
      (some [("Authorization", "Bearer abc"), ("Accept", "text/csv")])
      = [("Authorization", "secret-token"), ("Accept", "text/csv")] := rfl
  rw [h]
  decide

/-- Claim C12, amended: `construct_headers` keeps every caller-supplied header
other than `Authorization`, with its value; when the token is non-null and
non-empty the result has `Authorization` equal to the token, replacing a
caller-supplied one; when the token is null or empty the result is exactly
the caller-supplied headers, and empty when none are supplied.  Each of
`fetch_post`, `fetch_patch`, `fetch_put` and `fetch_delete` dispatches one
request with its method, `Content-Type: application/json`, the body handed
to `JSON.stringify` and credentials included; `fetch_get` dispatches one
`GET` request without a body and with credentials included. -/
theorem construct_headers_and_options (env : Env) (supplied : List (String × String))
    (url : URL) (body : JSVal) :
    (∀ k, k ≠ "Authorization" →
      (construct_headers env (some supplied)).lookup k = supplied.lookup k ∧
      ∀ v, ((k, v) ∈ construct_headers env (some supplied) ↔ (k, v) ∈ supplied)) ∧
    (∀ token, env.API_TOKEN = some token → token ≠ "" →
      (construct_headers env (some supplied)).lookup "Authorization" = some token ∧
      construct_headers env none = [("Authorization", token)]) ∧
    ((env.API_TOKEN = none ∨ env.API_TOKEN = some "") →
      construct_headers env (some supplied) = supplied ∧ construct_headers env none = []) ∧
    (construct_headers env (some [("Content-Type", "application/json")])).lookup "Content-Type"
      = some "application/json" ∧
    (fetch_post env url body).requests =
      [(url, { method := "POST",
               headers := construct_headers env (some [("Content-Type", "application/json")]),
               body := some body, credentials := "include" })] ∧
    (fetch_patch env url body).requests =
      [(url, { method := "PATCH",
               headers := construct_headers env (some [("Content-Type", "application/json")]),
               body := some body, credentials := "include" })] ∧
    (fetch_put env url body).requests =
      [(url, { method := "PUT",
               headers := construct_headers env (some [("Content-Type", "application/json")]),
               body := some body, credentials := "include" })] ∧
    (fetch_delete env url body).requests =
      [(url, { method := "DELETE",
               headers := construct_headers env (some [("Content-Type", "application/json")]),
               body := some body, credentials := "include" })] ∧
    (fetch_get env url).requests =
      [(url, { method := "GET", headers := construct_headers env none, body := none,
               credentials := "include" })] := by
  refine ⟨?_, ?_, ?_, ?_, dispatch_requests _ _ _, dispatch_requests _ _ _,
    dispatch_requests _ _ _, dispatch_requests _ _ _, dispatch_requests _ _ _⟩
  · intro k hk
    cases ht : env.API_TOKEN with
    | none => simp [construct_headers, ht]
    | some token =>
      by_cases he : token = ""
      · simp [construct_headers, ht, he]
      · simp [construct_headers, ht, he, lookup_setHeader, hk, mem_setHeader]
  · intro token ht he
    simp [construct_headers, ht, he, lookup_setHeader, setHeader]
  · intro h
    rcases h with h | h <;> simp [construct_headers, h]
  · cases ht : env.API_TOKEN with
    | none => simp [construct_headers, ht, List.lookup]
    | some token =>
      by_cases he : token = ""
      · simp [construct_headers, ht, he, List.lookup]
      · simp [construct_headers, ht, he, lookup_setHeader, List.lookup]

/-- Claim C12, amended, at `tokenEnv`: a supplied `Accept` header is kept and
`Authorization` is the token; without a token the supplied headers come back
unchanged. -/
theorem construct_headers_and_options_witness :
    (construct_headers tokenEnv (some [("Authorization", "Bearer abc"), ("Accept", "text/csv")])
      ).lookup "Accept" = some "text/csv" ∧
    (construct_headers tokenEnv (some [("Authorization", "Bearer abc"), ("Accept", "text/csv")])
      ).lookup "Authorization" = some "secret-token" ∧
    construct_headers (exampleEnv (.ok successResponse)) (some [("Accept", "text/csv")])
      = [("Accept", "text/csv")] :=
  ⟨((construct_headers_and_options tokenEnv
      [("Authorization", "Bearer abc"), ("Accept", "text/csv")] (URL.ofString "") null).1
      "Accept" (by decide)).1,
   ((construct_headers_and_options tokenEnv
      [("Authorization", "Bearer abc"), ("Accept", "text/csv")] (URL.ofString "") null).2.1
      "secret-token" rfl (by decide)).1,
   ((construct_headers_and_options (exampleEnv (.ok successResponse))
      [("Accept", "text/csv")] (URL.ofString "") null).2.2.1 (Or.inl rfl)).1⟩

/-! ## Save operations -/

/-- Claim C11, as stated, fails: `saveCollection` against an unreachable
server commits nothing at all, so it never marked the collection unsaved, and
`saveRole` against a server that reports success commits nothing, so it never
marks anything saved. -/
theorem save_marking_counterexample :
    (saveCollection offlineEnv [("c1", obj [])] (str "c1")).requests.length = 1 ∧
    (saveCollection offlineEnv [("c1", obj [])] (str "c1")).commits = [] ∧
    (saveRoleRequest (exampleEnv (.ok successResponse)) (str "u1") (obj [])).result
      = .ok (obj [("status", str "success")]) ∧
    (saveRole (exampleEnv (.ok successResponse)) (str "u1") (obj [])).commits = [] :=
  ⟨rfl, rfl, rfl, rfl⟩

/-- The effects of `saveItem` start with the unsaved mark, followed by the
request. -/
theorem saveItem_trace_start (env : Env) (all_item_data all_item_data_then : List (String × JSVal))
    (item_id : JSVal) :
    ∃ rest, (saveItem env all_item_data all_item_data_then item_id).trace =
      .console "log" :: .console "log" ::
      .commit "setItemSaved" (obj [("item_id", item_id), ("isSaved", bool false)]) ::
      .fetch (URL.ofString (env.API_URL ++ "/save-item/"))
        { method := "POST",
          headers := construct_headers env (some [("Content-Type", "application/json")]),
          body := some (obj [("item_id", item_id),
            ("data", (all_item_data.lookup (toJSString item_id)).getD undefined)]),
          credentials := "include" } :: rest := by
  simp only [saveItem, Run.bind_eq, Run.andThen, Run.console, Run.commit, Run.emit, Run.detach,
    List.cons_append, List.nil_append, List.singleton_append]
  cases h : (fetch_post env (URL.ofString (env.API_URL ++ "/save-item/"))
      (obj [("item_id", item_id),
        ("data", (all_item_data.lookup (toJSString item_id)).getD undefined)])).result with
  | error e =>
    simp only [Run.catchWith, h, fetch_post, dispatch_trace, List.cons_append]
    exact ⟨_, rfl⟩
  | ok v =>
    simp only [Run.catchWith, h, fetch_post, dispatch_trace, List.cons_append]
    split <;> exact ⟨_, rfl⟩

/-- A `forEach` whose callback commits one mutation per element commits them
in order and does not throw. -/
theorem Run.each_commit (mutation : String) (payload : JSVal → JSVal) (xs : List JSVal) :
    Run.each (fun x => ⟨[.commit mutation (payload x)], .ok ()⟩) xs
      = ⟨xs.map (fun x => .commit mutation (payload x)), .ok ()⟩ := by
  induction xs with
  | nil => rfl
  | cons x rest ih =>
    simp [Run.each, ih, Run.andThen]

/-- The mutations of a `saveItem` call whose request resolved with status
`"success"`: the unsaved mark, the new `last_modified`, the saved mark, and
then the saved marks of the displayed blocks. -/
theorem saveItem_commits_success (env : Env)
    (all_item_data all_item_data_then : List (String × JSVal))
    (item_id payload last_modified : JSVal)
    (hp : (saveItemRequest env all_item_data item_id).result = .ok payload)
    (hs : payload.prop "status" = .ok (str "success"))
    (hl : payload.prop "last_modified" = .ok last_modified) :
    ∃ rest, (saveItem env all_item_data all_item_data_then item_id).commits =
      ("setItemSaved", obj [("item_id", item_id), ("isSaved", bool false)]) ::
      ("updateItemData",
        obj [("item_id", item_id), ("item_data", obj [("last_modified", last_modified)])]) ::
      ("setItemSaved", obj [("item_id", item_id), ("isSaved", bool true)]) :: rest := by
  have hc : (saveItemRequest env all_item_data item_id).commits = [] := dispatch_commits _ _ _
  simp only [Run.commits, saveItemRequest] at hc
  simp only [saveItemRequest] at hp
  simp only [saveItem, Run.bind_eq, Run.pure_eq, Run.andThen, Run.console, Run.commit, Run.emit,
    Run.detach, Run.eval, Run.ret, Run.commits, hp, hs, hl, JSVal.isString, beq_self_eq_true,
    if_true]
  cases hd : ((all_item_data_then.lookup (toJSString item_id)).getD undefined).prop
      "display_order" with
  | error e =>
    simp [Run.catchWith, Run.alert, Run.emit, Run.ret, hc]
  | ok d =>
    cases d <;>
      simp [Run.catchWith, Run.alert, Run.emit, Run.ret, Run.forEach, Run.reject, hc,
        Run.each_commit, Run.commit]

/-- Splitting a trace at its first request loses no mutation. -/
theorem commits_syncPart_asyncPart (t : List Event) :
    (syncPart t).filterMap (fun e => match e with
      | .commit m v => some (m, v)
      | _ => none) ++
    (asyncPart t).filterMap (fun e => match e with
      | .commit m v => some (m, v)
      | _ => none) =
    t.filterMap (fun e => match e with
      | .commit m v => some (m, v)
      | _ => none) := by
  induction t with
  | nil => rfl
  | cons e rest ih =>
    cases e with
    | fetch u o => simp [syncPart, asyncPart]
    | commit m v => simp [syncPart, asyncPart, ih]
    | alert m => simp [syncPart, asyncPart, ih]
    | console l => simp [syncPart, asyncPart, ih]

/-- The mutations of `getUserInfo` set the display name, the user id and the
unverified flag, nothing else. -/
theorem getUserInfo_commit_names (env : Env) :
    ∀ c ∈ (getUserInfo env).commits,
      c.1 ∈ ["setDisplayName", "setCurrentUserID", "setIsUnverified"] := by
  have hc : (fetch_get env (URL.ofString (env.API_URL ++ "/get-current-user/"))).commits = [] :=
    dispatch_commits _ _ _
  simp only [Run.commits] at hc
  unfold getUserInfo
  cases h : (fetch_get env (URL.ofString (env.API_URL ++ "/get-current-user/"))).result with
  | error e => simp [Run.commits, Run.catchWith, Run.andThen, h, Run.ret, hc]
  | ok v =>
    cases v <;>
      simp [Run.commits, Run.catchWith, Run.andThen, h, Run.ret, Run.eval, Run.commit, Run.emit,
        JSVal.prop, hc]

/-- The mutations of `saveUser` by the outcome of its request: those of the
`getUserInfo` call when the request resolves with status `"success"`, none in
every other case. -/
theorem saveUser_commits (env : Env) (user_id user : JSVal) :
    (saveUser env user_id user).commits =
      match (saveUserRequest env user_id user).result with
      | .ok payload =>
        (match payload.prop "status" with
         | .ok status => if status.isString "success" then (getUserInfo env).commits else []
         | .error _ => [])
      | .error _ => [] := by
  have hc : (saveUserRequest env user_id user).commits = [] := dispatch_commits _ _ _
  simp only [Run.commits, saveUserRequest] at hc
  have hsplit := commits_syncPart_asyncPart (getUserInfo env).trace
  simp only [saveUserRequest]
  cases h : (fetch_patch env (URL.ofString (env.API_URL ++ "/users/" ++ toJSString user_id))
      user).result with
  | error e =>
    simp [saveUser, Run.andThen, Run.detach, Run.commits, Run.catchWith, Run.alert, Run.emit,
      Run.ret, h, hc]
  | ok payload =>
    cases hs : payload.prop "status" with
    | error e =>
      simp [saveUser, Run.andThen, Run.detach, Run.commits, Run.catchWith, Run.alert, Run.emit,
        Run.ret, Run.eval, h, hs, hc]
    | ok status =>
      cases hb : status.isString "success"
      · simp [saveUser, Run.andThen, Run.detach, Run.commits, Run.catchWith, Run.alert,
          Run.emit, Run.ret, Run.eval, h, hs, hb, hc]
      · simp [saveUser, Run.andThen, Run.console, Run.emit, Run.detach, Run.commits,
          Run.catchWith, Run.ret, Run.eval, Run.startThen, h, hs, hb, hc, hsplit]

/-- Whether `saveUser` and `saveRole` alert, when their request resolves with
a status that is not `"success"` or with a payload whose status cannot be
read. -/
theorem save_status_alerts (env : Env) (user_id body payload : JSVal)
    (hstatus : ∀ status, payload.prop "status" = .ok status → status.isString "success" = false) :
    ((saveUserRequest env user_id body).result = .ok payload →
      (saveUser env user_id body).alerted = true) ∧
    ((saveRoleRequest env user_id body).result = .ok payload →
      (saveRole env user_id body).alerted = true) := by
  constructor
  · intro h
    simp only [saveUserRequest] at h
    cases hs : payload.prop "status" with
    | error e =>
      simp [saveUser, Run.andThen, Run.detach, Run.alerted, Run.catchWith, Run.alert, Run.emit,
        Run.ret, Run.eval, h, hs]
    | ok status =>
      simp [saveUser, Run.andThen, Run.detach, Run.alerted, Run.catchWith, Run.alert, Run.emit,
        Run.ret, Run.eval, h, hs, hstatus status hs]
  · intro h
    simp only [saveRoleRequest] at h
    cases hs : payload.prop "status" with
    | error e =>
      simp [saveRole, Run.andThen, Run.detach, Run.alerted, Run.catchWith, Run.alert, Run.emit,
        Run.ret, Run.eval, h, hs]
    | ok status =>
      simp [saveRole, Run.andThen, Run.detach, Run.alerted, Run.catchWith, Run.alert, Run.emit,
        Run.ret, Run.eval, h, hs, hstatus status hs]

/-- Claim C11, amended.  `saveItem` commits the unsaved mark of the item before
it dispatches its request; when the request resolves with status `"success"`
it then commits the returned `last_modified` into the data of the item and
the saved mark; when the request rejects, the unsaved mark stays the only
mutation and the user is alerted.  `saveCollection` commits nothing before
its request; on status `"success"` its only mutation is the saved mark of the
collection; when the request rejects it commits nothing and alerts.
`saveUser` commits nothing before its request; on status `"success"` its
mutations are those of the `getUserInfo` call it starts; when the request
rejects, or resolves with any other status or with a payload whose status
cannot be read, it commits nothing and alerts; in every case its mutations
are among `setDisplayName`, `setCurrentUserID` and `setIsUnverified`, so it
never commits a saved or unsaved mark.  `saveRole` never commits anything,
and alerts when the request rejects or resolves without status `"success"`. -/
theorem save_operations (env : Env)
    (all_item_data all_item_data_then all_collection_data : List (String × JSVal))
    (item_id collection_id user_id user role : JSVal) :
    ((∃ rest, (saveItem env all_item_data all_item_data_then item_id).trace =
        .console "log" :: .console "log" ::
        .commit "setItemSaved" (obj [("item_id", item_id), ("isSaved", bool false)]) ::
        .fetch (URL.ofString (env.API_URL ++ "/save-item/"))
          { method := "POST",
            headers := construct_headers env (some [("Content-Type", "application/json")]),
            body := some (obj [("item_id", item_id),
              ("data", (all_item_data.lookup (toJSString item_id)).getD undefined)]),
            credentials := "include" } :: rest) ∧
      (∀ payload last_modified,
        (saveItemRequest env all_item_data item_id).result = .ok payload →
        payload.prop "status" = .ok (str "success") →
        payload.prop "last_modified" = .ok last_modified →
        ∃ rest, (saveItem env all_item_data all_item_data_then item_id).commits =
          ("setItemSaved", obj [("item_id", item_id), ("isSaved", bool false)]) ::
          ("updateItemData",
            obj [("item_id", item_id), ("item_data", obj [("last_modified", last_modified)])]) ::
          ("setItemSaved", obj [("item_id", item_id), ("isSaved", bool true)]) :: rest) ∧
      (∀ e, (saveItemRequest env all_item_data item_id).result = .error e →
        (saveItem env all_item_data all_item_data_then item_id).commits =
          [("setItemSaved", obj [("item_id", item_id), ("isSaved", bool false)])] ∧
        (saveItem env all_item_data all_item_data_then item_id).alerted = true)) ∧
    ((∃ rest, (saveCollection env all_collection_data collection_id).trace =
        .fetch (URL.ofString (env.API_URL ++ "/collections/" ++ toJSString collection_id))
          { method := "PATCH",
            headers := construct_headers env (some [("Content-Type", "application/json")]),
            body := some (obj [("data",
              (all_collection_data.lookup (toJSString collection_id)).getD undefined)]),
            credentials := "include" } :: rest) ∧
      (∀ payload,
        (saveCollectionRequest env all_collection_data collection_id).result = .ok payload →
        payload.prop "status" = .ok (str "success") →
        (saveCollection env all_collection_data collection_id).commits =
          [("setSavedCollection",
            obj [("collection_id", collection_id), ("isSaved", bool true)])]) ∧
      (∀ e, (saveCollectionRequest env all_collection_data collection_id).result = .error e →
        (saveCollection env all_collection_data collection_id).commits = [] ∧
        (saveCollection env all_collection_data collection_id).alerted = true)) ∧
    ((∃ rest, (saveUser env user_id user).trace =
        .fetch (URL.ofString (env.API_URL ++ "/users/" ++ toJSString user_id))
          { method := "PATCH",
            headers := construct_headers env (some [("Content-Type", "application/json")]),
            body := some user, credentials := "include" } :: rest) ∧
      (∀ payload, (saveUserRequest env user_id user).result = .ok payload →
        payload.prop "status" = .ok (str "success") →
        (saveUser env user_id user).commits = (getUserInfo env).commits) ∧
      (∀ e, (saveUserRequest env user_id user).result = .error e →
        (saveUser env user_id user).commits = [] ∧
        (saveUser env user_id user).alerted = true) ∧
      (∀ payload status, (saveUserRequest env user_id user).result = .ok payload →
        payload.prop "status" = .ok status → status ≠ str "success" →
        (saveUser env user_id user).commits = [] ∧
        (saveUser env user_id user).alerted = true) ∧
      (∀ payload e, (saveUserRequest env user_id user).result = .ok payload →
        payload.prop "status" = .error e →
        (saveUser env user_id user).commits = [] ∧
        (saveUser env user_id user).alerted = true) ∧
      (∀ c ∈ (saveUser env user_id user).commits,
        c.1 ∈ ["setDisplayName", "setCurrentUserID", "setIsUnverified"])) ∧
    ((saveRole env user_id role).commits = [] ∧
      (∀ e, (saveRoleRequest env user_id role).result = .error e →
        (saveRole env user_id role).alerted = true) ∧
      (∀ payload status, (saveRoleRequest env user_id role).result = .ok payload →
        payload.prop "status" = .ok status → status ≠ str "success" →
        (saveRole env user_id role).alerted = true) ∧
      (∀ payload e, (saveRoleRequest env user_id role).result = .ok payload →
        payload.prop "status" = .error e →
        (saveRole env user_id role).alerted = true)) := by
  have hnot : ∀ status : JSVal, status ≠ str "success" → status.isString "success" = false := by
    intro status hne
    cases hb : status.isString "success"
    · rfl
    · exact absurd ((JSVal.isString_iff status _).1 hb) hne
  refine ⟨⟨saveItem_trace_start env all_item_data all_item_data_then item_id,
    fun payload last_modified hp hs hl =>
      saveItem_commits_success env all_item_data all_item_data_then item_id payload
        last_modified hp hs hl, ?_⟩, ⟨?_, ?_, ?_⟩, ⟨?_, ?_, ?_, ?_, ?_, ?_⟩, ⟨?_, ?_, ?_, ?_⟩⟩
  · intro e h
    have hc : (saveItemRequest env all_item_data item_id).commits = [] := dispatch_commits _ _ _
    simp only [Run.commits, saveItemRequest] at hc
    simp only [saveItemRequest] at h
    simp [saveItem, Run.andThen, Run.console, Run.commit, Run.emit, Run.detach, Run.commits,
      Run.alerted, Run.catchWith, Run.alert, Run.ret, h, hc]
  · simp only [saveCollection, Run.detach, Run.bind_eq, Run.andThen]
    cases h : (fetch_patch env
        (URL.ofString (env.API_URL ++ "/collections/" ++ toJSString collection_id))
        (obj [("data",
          (all_collection_data.lookup (toJSString collection_id)).getD undefined)])).result with
    | error e =>
      simp only [Run.catchWith, h, fetch_patch, dispatch_trace, List.cons_append]
      exact ⟨_, rfl⟩
    | ok v =>
      simp only [Run.catchWith, h, fetch_patch, dispatch_trace, List.cons_append]
      split <;> exact ⟨_, rfl⟩
  · intro payload h hs
    have hc : (saveCollectionRequest env all_collection_data collection_id).commits = [] :=
      dispatch_commits _ _ _
    simp only [Run.commits, saveCollectionRequest] at hc
    simp only [saveCollectionRequest] at h
    simp [saveCollection, Run.andThen, Run.console, Run.commit, Run.emit, Run.detach,
      Run.commits, Run.catchWith, Run.ret, Run.eval, JSVal.isString, h, hs, hc]
  · intro e h
    have hc : (saveCollectionRequest env all_collection_data collection_id).commits = [] :=
      dispatch_commits _ _ _
    simp only [Run.commits, saveCollectionRequest] at hc
    simp only [saveCollectionRequest] at h
    simp [saveCollection, Run.andThen, Run.detach, Run.commits, Run.alerted, Run.catchWith,
      Run.alert, Run.emit, Run.ret, h, hc]
  · simp only [saveUser, Run.detach, Run.bind_eq, Run.andThen]
    cases h : (fetch_patch env (URL.ofString (env.API_URL ++ "/users/" ++ toJSString user_id))
        user).result with
    | error e =>
      simp only [Run.catchWith, h, fetch_patch, dispatch_trace, List.cons_append]
      exact ⟨_, rfl⟩
    | ok v =>
      simp only [Run.catchWith, h, fetch_patch, dispatch_trace, List.cons_append]
      split <;> exact ⟨_, rfl⟩
  · intro payload h hs
    have hc : (saveUserRequest env user_id user).commits = [] := dispatch_commits _ _ _
    simp only [Run.commits, saveUserRequest] at hc
    simp only [saveUserRequest] at h
    have hsplit := commits_syncPart_asyncPart (getUserInfo env).trace
    simp [saveUser, Run.andThen, Run.console, Run.emit, Run.detach, Run.commits,
      Run.catchWith, Run.ret, Run.eval, Run.startThen, JSVal.isString, h, hs, hc, hsplit]
  · intro e h
    have hc : (saveUserRequest env user_id user).commits = [] := dispatch_commits _ _ _
    simp only [Run.commits, saveUserRequest] at hc
    simp only [saveUserRequest] at h
    simp [saveUser, Run.andThen, Run.detach, Run.commits, Run.alerted, Run.catchWith,
      Run.alert, Run.emit, Run.ret, h, hc]
  · intro payload status h hs hne
    have hcm := saveUser_commits env user_id user
    rw [h] at hcm
    simp only [hs, hnot status hne] at hcm
    exact ⟨by simpa using hcm,
      (save_status_alerts env user_id user payload (fun st hst => by
        rw [hs] at hst
        cases hst
        exact hnot status hne)).1 h⟩
  · intro payload e h hs
    have hcm := saveUser_commits env user_id user
    rw [h] at hcm
    simp only [hs] at hcm
    exact ⟨hcm,
      (save_status_alerts env user_id user payload (fun st hst => by
        rw [hs] at hst
        cases hst)).1 h⟩
  · intro c hmem
    rw [saveUser_commits] at hmem
    cases h : (saveUserRequest env user_id user).result with
    | error e => simp [h] at hmem
    | ok payload =>
      cases hs : payload.prop "status" with
      | error e => simp [h, hs] at hmem
      | ok status =>
        cases hb : status.isString "success"
        · simp [h, hs, hb] at hmem
        · simp only [h, hs, hb, if_true] at hmem
          exact getUserInfo_commit_names env c hmem
  · have hc : (saveRoleRequest env user_id role).commits = [] := dispatch_commits _ _ _
    simp only [Run.commits, saveRoleRequest] at hc
    cases h : (fetch_patch env (URL.ofString (env.API_URL ++ "/roles/" ++ toJSString user_id))
        role).result with
    | error e =>
      simp [saveRole, Run.andThen, Run.detach, Run.commits, Run.catchWith, Run.alert, Run.emit,
        Run.ret, h, hc]
    | ok v =>
      cases hs : v.prop "status" with
      | error e =>
        simp [saveRole, Run.andThen, Run.detach, Run.commits, Run.catchWith, Run.alert,
          Run.emit, Run.ret, Run.eval, h, hs, hc]
      | ok status =>
        cases hb : status.isString "success" <;>
          simp [saveRole, Run.andThen, Run.detach, Run.commits, Run.catchWith, Run.alert,
            Run.emit, Run.ret, Run.eval, Run.console, h, hs, hb, hc]
  · intro e h
    simp only [saveRoleRequest] at h
    simp [saveRole, Run.andThen, Run.detach, Run.alerted, Run.catchWith, Run.alert, Run.emit,
      Run.ret, h]
  · intro payload status h hs hne
    exact (save_status_alerts env user_id role payload (fun st hst => by
      rw [hs] at hst
      cases hst
      exact hnot status hne)).2 h
  · intro payload e h hs
    exact (save_status_alerts env user_id role payload (fun st hst => by
      rw [hs] at hst
      cases hst)).2 h

/-- Claim C11, amended, at `exampleSaveItem`, whose request resolves with
status `"success"`, at `saveCollection` against an unreachable server, and at
`saveUser` against a server that answers with status `"error"`. -/
theorem save_operations_witness :
    exampleSaveItem.commits.map (fun c => c.1) =
      ["setItemSaved", "updateItemData", "setItemSaved", "setBlockSaved", "setBlockSaved"] ∧
    ((saveCollection offlineEnv [("c1", obj [])] (str "c1")).commits = [] ∧
      (saveCollection offlineEnv [("c1", obj [])] (str "c1")).alerted = true) ∧
    ((saveUser (exampleEnv (.ok noAccessResponse)) (str "u1") (obj [])).commits = [] ∧
      (saveUser (exampleEnv (.ok noAccessResponse)) (str "u1") (obj [])).alerted = true) :=
  ⟨rfl,
   (save_operations offlineEnv exampleItems exampleItems [("c1", obj [])] (str "s1") (str "c1")
      (str "u1") (obj []) (obj [])).2.1.2.2 (error "TypeError" "Failed to fetch") rfl,
   (save_operations (exampleEnv (.ok noAccessResponse)) exampleItems exampleItems
      [("c1", obj [])] (str "s1") (str "c1") (str "u1") (obj []) (obj [])).2.2.1.2.2.2.1
      (obj [("status", str "error"), ("message", str "no access")]) (str "error") rfl rfl
      (by simp)⟩

/-! ## Failure handling -/

theorem dispatch_errorLogged (env : Env) (url : URL) (options : RequestOptions) :
    (dispatch env url options).errorLogged = false := by
  simp only [Run.errorLogged, dispatch_trace]
  cases env.fetch url options <;> simp

theorem dispatch_alerted (env : Env) (url : URL) (options : RequestOptions) :
    (dispatch env url options).alerted = false := by
  simp only [Run.alerted, dispatch_trace]
  cases env.fetch url options <;> simp

/-- Claim C13, as stated, fails: against an unreachable server,
`removeItemsFromCollection` both alerts and rejects, and `getItemGraph` and
`getUserInfo` neither log, nor alert, nor reject. -/
theorem failure_handling_counterexample :
    ((removeItemsFromCollection offlineEnv (str "c1") (arr [str "r1"])).alerted = true ∧
      (removeItemsFromCollection offlineEnv (str "c1") (arr [str "r1"])).result
        = .error (error "TypeError" "Failed to fetch")) ∧
    ((getItemGraph offlineEnv (str "X") undefined).alerted = false ∧
      (getItemGraph offlineEnv (str "X") undefined).errorLogged = false ∧
      (getItemGraph offlineEnv (str "X") undefined).result
        = .ok (str "getItemGraph unsuccessful. Error: TypeError: Failed to fetch")) ∧
    ((getUserInfo offlineEnv).alerted = false ∧
      (getUserInfo offlineEnv).errorLogged = false ∧
      (getUserInfo offlineEnv).result = .ok null) :=
  ⟨⟨rfl, rfl⟩, ⟨rfl, rfl, rfl⟩, ⟨rfl, rfl, rfl⟩⟩

/-- Claim C13, amended.  Each endpoint operation handles a failed call by its
own policy.  When every request rejects with `e`, the policy is one of six:
logged and re-thrown (`getStats`, `getInfo`, `getUsersList`, `getBlocksInfos`,
`fetchRemoteTree`, and the five list fetches when `e` is not `"UNAUTHORIZED"`);
alerted and not passed on (the four list deletes, `getItemData`,
`getItemByRefcode`, `getCollectionData`, the four save operations,
`deleteBlock`, `deleteFileFromSample`);
alerted and also re-thrown (`removeItemsFromCollection`,
`addItemsToCollection`, `getSupportedSchemasList`, `getSchema`);
neither logged nor alerted nor passed on (`getUserInfo`, `requestMagicLink`,
`addRemoteFileToSample`, `getItemGraph`);
logged and not passed on (`addABlock`, and `updateBlockFromServer` when its
block data is not `null` or `undefined`);
rejected without a log or an alert (`createNewItem`, `createNewSamples`,
`createNewCollection`, the three searches, `updateItemPermissions`, and
`requestNewAPIKey`, which rejects with a new error).
When every request resolves with `payload` and the payload reports the
failure: `addItemsToCollection` (status other than `"success"`) logs, alerts
and rejects; `getSupportedSchemasList` and `getSchema` (falsy payload) alert
and reject; `updateItemPermissions` (status `"error"`) and `requestNewAPIKey`
(no key) reject without a log or an alert; `saveUser` and `saveRole` (status
other than `"success"`) alert and do not pass the failure on. -/
theorem failure_handling (env : Env)
    (item_id block_id file_id collection_id user_id refcode : JSVal)
    (type date name title query nresults types index block_type : JSVal)
    (startingCollection copyFrom generateIDAutomatically newSampleDatas : JSVal)
    (collection_summary refcodes creators user role origin email_address : JSVal)
    (file_entry invalidate_cache block_data saveToDatabase : JSVal)
    (startingData : Option (List (String × JSVal)))
    (all_item_data all_item_data_then all_collection_data : List (String × JSVal)) :
    (∀ e, (∀ url options, (dispatch env url options).result = .error e) →
      (Propagates (getStats env) e true false ∧
        Propagates (getInfo env) e true false ∧
        Propagates (getUsersList env) e true false ∧
        Propagates (getBlocksInfos env) e true false ∧
        Propagates (fetchRemoteTree env invalidate_cache) e true false) ∧
      (e ≠ str "UNAUTHORIZED" →
        Propagates (getSampleList env) e true false ∧
        Propagates (getCollectionList env) e true false ∧
        Propagates (getCollectionSampleList env collection_id) e true false ∧
        Propagates (getStartingMaterialList env) e true false ∧
        Propagates (getEquipmentList env) e true false) ∧
      (Swallows (deleteSample env item_id) false true ∧
        Swallows (deleteStartingMaterial env item_id) false true ∧
        Swallows (deleteEquipment env item_id) false true ∧
        Swallows (deleteCollection env collection_id collection_summary) false true ∧
        Swallows (getItemData env item_id) false true ∧
        Swallows (getItemByRefcode env refcode) false true ∧
        Swallows (getCollectionData env collection_id) false true ∧
        Swallows (saveItem env all_item_data all_item_data_then item_id) false true ∧
        Swallows (saveCollection env all_collection_data collection_id) false true ∧
        Swallows (saveUser env user_id user) false true ∧
        Swallows (saveRole env user_id role) false true ∧
        Swallows (deleteBlock env item_id block_id) false true ∧
        Swallows (deleteFileFromSample env item_id file_id) false true) ∧
      (Propagates (removeItemsFromCollection env collection_id refcodes) e false true ∧
        Propagates (addItemsToCollection env collection_id refcodes) e false true ∧
        Propagates (getSupportedSchemasList env) e false true ∧
        Propagates (getSchema env type) e false true) ∧
      (Swallows (getUserInfo env) false false ∧
        Swallows (requestMagicLink env origin email_address) false false ∧
        Swallows (addRemoteFileToSample env file_entry item_id) false false ∧
        Swallows (getItemGraph env item_id collection_id) false false) ∧
      (Swallows (addABlock env item_id block_type index) true false ∧
        (block_data.isNullish = false →
          Swallows (updateBlockFromServer env item_id block_id block_data saveToDatabase)
            true false)) ∧
      (Propagates (createNewItem env item_id type date name startingCollection startingData copyFrom
          generateIDAutomatically) e false false ∧
        Propagates (createNewSamples env newSampleDatas copyFrom generateIDAutomatically) e false false ∧
        Propagates (createNewCollection env collection_id title startingData copyFrom) e false false ∧
        Propagates (searchItems env query nresults types) e false false ∧
        Propagates (searchCollections env query nresults) e false false ∧
        Propagates (searchUsers env query nresults) e false false ∧
        Propagates (updateItemPermissions env refcode creators) e false false ∧
        (requestNewAPIKey env).errorLogged = false ∧ (requestNewAPIKey env).alerted = false ∧
          (requestNewAPIKey env).rejects = true)) ∧
    (∀ payload, (∀ url options, (dispatch env url options).result = .ok payload) →
      (∀ status, payload.prop "status" = .ok status → status ≠ str "success" →
        (addItemsToCollection env collection_id refcodes).errorLogged = true ∧
        (addItemsToCollection env collection_id refcodes).alerted = true ∧
        (addItemsToCollection env collection_id refcodes).result
          = .error (newError (str "Failed to add items to collection."))) ∧
      (payload.truthy = false →
        Propagates (getSupportedSchemasList env)
          (newError (str "Failed to get schemas from API.")) false true ∧
        Propagates (getSchema env type)
          (newError (str ("Failed to get " ++ toJSString type ++ " schemas from API.")))
          false true) ∧
      (∀ message, payload.prop "status" = .ok (str "error") →
        payload.prop "message" = .ok message →
        Propagates (updateItemPermissions env refcode creators) (newError message) false false) ∧
      (∀ key message, payload.prop "key" = .ok key → key.truthy = false →
        payload.prop "message" = .ok message →
        (requestNewAPIKey env).errorLogged = false ∧ (requestNewAPIKey env).alerted = false ∧
        (requestNewAPIKey env).rejects = true) ∧
      (∀ status, payload.prop "status" = .ok status → status ≠ str "success" →
        Swallows (saveUser env user_id user) false true ∧
        Swallows (saveRole env user_id role) false true)) := by
  have h1 := dispatch_errorLogged env
  have h2 := dispatch_alerted env
  simp only [Run.errorLogged, Run.alerted] at h1 h2
  have hnot : ∀ (status : JSVal) (text : String), status ≠ str text →
      status.isString text = false := by
    intro status text hne
    cases hb : status.isString text
    · rfl
    · exact absurd ((JSVal.isString_iff status _).1 hb) hne
  refine ⟨fun e hfail => ⟨⟨?_, ?_, ?_, ?_, ?_⟩, fun hne => ?_,
    ⟨?_, ?_, ?_, ?_, ?_, ?_, ?_, ?_, ?_, ?_, ?_, ?_, ?_⟩, ⟨?_, ?_, ?_, ?_⟩, ⟨?_, ?_, ?_, ?_⟩,
    ⟨?_, fun hb => ?_⟩, ⟨?_, ?_, ?_, ?_, ?_, ?_, ?_, ?_⟩⟩,
    fun payload hres => ⟨fun status hs hne => ?_, fun hp => ⟨?_, ?_⟩, fun message hs hm => ?_,
      fun key message hk hkt hm => ?_, fun status hs hne => ⟨?_, ?_⟩⟩⟩
  · simp [Propagates, Swallows, getStats, fetch_get, Run.andThen, Run.catchWith, Run.errorLogged,
        Run.alerted, Run.rejects, Run.detach, Run.console, Run.commit, Run.alert, Run.emit,
        Run.reject, Run.ret, Run.eval, hfail, h1, h2]
  · simp [Propagates, Swallows, getInfo, fetch_get, Run.andThen, Run.catchWith, Run.errorLogged,
        Run.alerted, Run.rejects, Run.detach, Run.console, Run.commit, Run.alert, Run.emit,
        Run.reject, Run.ret, Run.eval, hfail, h1, h2]
  · simp [Propagates, Swallows, getUsersList, fetch_get, Run.andThen, Run.catchWith,
        Run.errorLogged, Run.alerted, Run.rejects, Run.detach, Run.console, Run.commit, Run.alert,
        Run.emit, Run.reject, Run.ret, Run.eval, hfail, h1, h2]
  · simp [Propagates, Swallows, getBlocksInfos, fetch_get, Run.andThen, Run.catchWith,
        Run.errorLogged, Run.alerted, Run.rejects, Run.detach, Run.console, Run.commit, Run.alert,
        Run.emit, Run.reject, Run.ret, Run.eval, hfail, h1, h2]
  · simp [Propagates, Swallows, fetchRemoteTree, fetch_get, Run.andThen, Run.catchWith,
        Run.errorLogged, Run.alerted, Run.rejects, Run.detach, Run.console, Run.commit, Run.alert,
        Run.emit, Run.reject, Run.ret, Run.eval, hfail, h1, h2]
  · have hs : e.isString "UNAUTHORIZED" = false := hnot e _ hne
    refine ⟨?_, ?_, ?_, ?_, ?_⟩
    · simp [Propagates, Swallows, getSampleList, fetch_get, hs, Run.andThen, Run.catchWith,
          Run.errorLogged, Run.alerted, Run.rejects, Run.detach, Run.console, Run.commit,
          Run.alert, Run.emit, Run.reject, Run.ret, Run.eval, hfail, h1, h2]
    · simp [Propagates, Swallows, getCollectionList, fetch_get, hs, Run.andThen, Run.catchWith,
          Run.errorLogged, Run.alerted, Run.rejects, Run.detach, Run.console, Run.commit,
          Run.alert, Run.emit, Run.reject, Run.ret, Run.eval, hfail, h1, h2]
    · simp [Propagates, Swallows, getCollectionSampleList, fetch_get, hs, Run.andThen,
          Run.catchWith, Run.errorLogged, Run.alerted, Run.rejects, Run.detach, Run.console,
          Run.commit, Run.alert, Run.emit, Run.reject, Run.ret, Run.eval, hfail, h1, h2]
    · simp [Propagates, Swallows, getStartingMaterialList, fetch_get, hs, Run.andThen,
          Run.catchWith, Run.errorLogged, Run.alerted, Run.rejects, Run.detach, Run.console,
          Run.commit, Run.alert, Run.emit, Run.reject, Run.ret, Run.eval, hfail, h1, h2]
    · simp [Propagates, Swallows, getEquipmentList, fetch_get, hs, Run.andThen, Run.catchWith,
          Run.errorLogged, Run.alerted, Run.rejects, Run.detach, Run.console, Run.commit,
          Run.alert, Run.emit, Run.reject, Run.ret, Run.eval, hfail, h1, h2]
  · simp [Propagates, Swallows, deleteSample, fetch_post, Run.andThen, Run.catchWith,
        Run.errorLogged, Run.alerted, Run.rejects, Run.detach, Run.console, Run.commit, Run.alert,
        Run.emit, Run.reject, Run.ret, Run.eval, hfail, h1, h2]
  · simp [Propagates, Swallows, deleteStartingMaterial, fetch_post, Run.andThen, Run.catchWith,
        Run.errorLogged, Run.alerted, Run.rejects, Run.detach, Run.console, Run.commit, Run.alert,
        Run.emit, Run.reject, Run.ret, Run.eval, hfail, h1, h2]
  · simp [Propagates, Swallows, deleteEquipment, fetch_post, Run.andThen, Run.catchWith,
        Run.errorLogged, Run.alerted, Run.rejects, Run.detach, Run.console, Run.commit, Run.alert,
        Run.emit, Run.reject, Run.ret, Run.eval, hfail, h1, h2]
  · simp [Propagates, Swallows, deleteCollection, fetch_delete, Run.andThen, Run.catchWith,
        Run.errorLogged, Run.alerted, Run.rejects, Run.detach, Run.console, Run.commit, Run.alert,
        Run.emit, Run.reject, Run.ret, Run.eval, hfail, h1, h2]
  · simp [Propagates, Swallows, getItemData, fetch_get, Run.andThen, Run.catchWith,
        Run.errorLogged, Run.alerted, Run.rejects, Run.detach, Run.console, Run.commit, Run.alert,
        Run.emit, Run.reject, Run.ret, Run.eval, hfail, h1, h2]
  · simp [Propagates, Swallows, getItemByRefcode, fetch_get, Run.andThen, Run.catchWith,
        Run.errorLogged, Run.alerted, Run.rejects, Run.detach, Run.console, Run.commit, Run.alert,
        Run.emit, Run.reject, Run.ret, Run.eval, hfail, h1, h2]
  · simp [Propagates, Swallows, getCollectionData, fetch_get, Run.andThen, Run.catchWith,
        Run.errorLogged, Run.alerted, Run.rejects, Run.detach, Run.console, Run.commit, Run.alert,
        Run.emit, Run.reject, Run.ret, Run.eval, hfail, h1, h2]
  · simp [Propagates, Swallows, saveItem, fetch_post, Run.andThen, Run.catchWith, Run.errorLogged,
        Run.alerted, Run.rejects, Run.detach, Run.console, Run.commit, Run.alert, Run.emit,
        Run.reject, Run.ret, Run.eval, hfail, h1, h2]
  · simp [Propagates, Swallows, saveCollection, fetch_patch, Run.andThen, Run.catchWith,
        Run.errorLogged, Run.alerted, Run.rejects, Run.detach, Run.console, Run.commit, Run.alert,
        Run.emit, Run.reject, Run.ret, Run.eval, hfail, h1, h2]
  · simp [Propagates, Swallows, saveUser, fetch_patch, Run.andThen, Run.catchWith, Run.errorLogged,
        Run.alerted, Run.rejects, Run.detach, Run.console, Run.commit, Run.alert, Run.emit,
        Run.reject, Run.ret, Run.eval, hfail, h1, h2]
  · simp [Propagates, Swallows, saveRole, fetch_patch, Run.andThen, Run.catchWith, Run.errorLogged,
        Run.alerted, Run.rejects, Run.detach, Run.console, Run.commit, Run.alert, Run.emit,
        Run.reject, Run.ret, Run.eval, hfail, h1, h2]
  · simp [Propagates, Swallows, deleteBlock, fetch_post, Run.andThen, Run.catchWith,
        Run.errorLogged, Run.alerted, Run.rejects, Run.detach, Run.console, Run.commit, Run.alert,
        Run.emit, Run.reject, Run.ret, Run.eval, hfail, h1, h2]
  · simp [Propagates, Swallows, deleteFileFromSample, fetch_post, Run.andThen, Run.catchWith,
        Run.errorLogged, Run.alerted, Run.rejects, Run.detach, Run.console, Run.commit, Run.alert,
        Run.emit, Run.reject, Run.ret, Run.eval, hfail, h1, h2]
  · simp [Propagates, Swallows, removeItemsFromCollection, fetch_delete, Run.andThen,
        Run.catchWith, Run.errorLogged, Run.alerted, Run.rejects, Run.detach, Run.console,
        Run.commit, Run.alert, Run.emit, Run.reject, Run.ret, Run.eval, hfail, h1, h2]
  · simp [Propagates, Swallows, addItemsToCollection, fetch_post, Run.andThen, Run.catchWith,
        Run.errorLogged, Run.alerted, Run.rejects, Run.detach, Run.console, Run.commit, Run.alert,
        Run.emit, Run.reject, Run.ret, Run.eval, hfail, h1, h2]
  · simp [Propagates, Swallows, getSupportedSchemasList, fetch_get, Run.andThen, Run.catchWith,
        Run.errorLogged, Run.alerted, Run.rejects, Run.detach, Run.console, Run.commit, Run.alert,
        Run.emit, Run.reject, Run.ret, Run.eval, hfail, h1, h2]
  · simp [Propagates, Swallows, getSchema, fetch_get, Run.andThen, Run.catchWith, Run.errorLogged,
        Run.alerted, Run.rejects, Run.detach, Run.console, Run.commit, Run.alert, Run.emit,
        Run.reject, Run.ret, Run.eval, hfail, h1, h2]
  · simp [Propagates, Swallows, getUserInfo, fetch_get, Run.andThen, Run.catchWith,
        Run.errorLogged, Run.alerted, Run.rejects, Run.detach, Run.console, Run.commit, Run.alert,
        Run.emit, Run.reject, Run.ret, Run.eval, hfail, h1, h2]
  · simp [Propagates, Swallows, requestMagicLink, fetch_post, Run.andThen, Run.catchWith,
        Run.errorLogged, Run.alerted, Run.rejects, Run.detach, Run.console, Run.commit, Run.alert,
        Run.emit, Run.reject, Run.ret, Run.eval, hfail, h1, h2]
  · simp [Propagates, Swallows, addRemoteFileToSample, fetch_post, Run.andThen, Run.catchWith,
        Run.errorLogged, Run.alerted, Run.rejects, Run.detach, Run.console, Run.commit, Run.alert,
        Run.emit, Run.reject, Run.ret, Run.eval, hfail, h1, h2]
  · simp [Propagates, Swallows, getItemGraph, fetch_get, Run.andThen, Run.catchWith,
        Run.errorLogged, Run.alerted, Run.rejects, Run.detach, Run.console, Run.commit, Run.alert,
        Run.emit, Run.reject, Run.ret, Run.eval, hfail, h1, h2]
  · simp [Propagates, Swallows, addABlock, fetch_post, Run.andThen, Run.catchWith, Run.errorLogged,
        Run.alerted, Run.rejects, Run.detach, Run.console, Run.commit, Run.alert, Run.emit,
        Run.reject, Run.ret, Run.eval, hfail, h1, h2]
  · simp only [updateBlockFromServer, deleteProp_thrice _ _ hb]
    simp [Swallows, fetch_post, Run.andThen, Run.catchWith, Run.errorLogged, Run.alerted,
        Run.rejects, Run.detach, Run.console, Run.commit, Run.alert, Run.emit, Run.reject, Run.ret,
        Run.eval, hfail, h1, h2]
  · simp [Propagates, Swallows, createNewItem, fetch_post, Run.andThen, Run.catchWith,
        Run.errorLogged, Run.alerted, Run.rejects, Run.detach, Run.console, Run.commit, Run.alert,
        Run.emit, Run.reject, Run.ret, Run.eval, hfail, h1, h2]
  · simp [Propagates, Swallows, createNewSamples, fetch_post, Run.andThen, Run.catchWith,
        Run.errorLogged, Run.alerted, Run.rejects, Run.detach, Run.console, Run.commit, Run.alert,
        Run.emit, Run.reject, Run.ret, Run.eval, hfail, h1, h2]
  · simp [Propagates, Swallows, createNewCollection, fetch_put, Run.andThen, Run.catchWith,
        Run.errorLogged, Run.alerted, Run.rejects, Run.detach, Run.console, Run.commit, Run.alert,
        Run.emit, Run.reject, Run.ret, Run.eval, hfail, h1, h2]
  · simp [Propagates, Swallows, searchItems, fetch_get, Run.andThen, Run.catchWith,
        Run.errorLogged, Run.alerted, Run.rejects, Run.detach, Run.console, Run.commit, Run.alert,
        Run.emit, Run.reject, Run.ret, Run.eval, hfail, h1, h2]
  · simp [Propagates, Swallows, searchCollections, fetch_get, Run.andThen, Run.catchWith,
        Run.errorLogged, Run.alerted, Run.rejects, Run.detach, Run.console, Run.commit, Run.alert,
        Run.emit, Run.reject, Run.ret, Run.eval, hfail, h1, h2]
  · simp [Propagates, Swallows, searchUsers, fetch_get, Run.andThen, Run.catchWith,
        Run.errorLogged, Run.alerted, Run.rejects, Run.detach, Run.console, Run.commit, Run.alert,
        Run.emit, Run.reject, Run.ret, Run.eval, hfail, h1, h2]
  · simp [Propagates, Swallows, updateItemPermissions, fetch_patch, Run.andThen, Run.catchWith,
        Run.errorLogged, Run.alerted, Run.rejects, Run.detach, Run.console, Run.commit, Run.alert,
        Run.emit, Run.reject, Run.ret, Run.eval, hfail, h1, h2]
  · cases hm : e.prop "message" <;>
      simp [requestNewAPIKey, fetch_get, Run.andThen, Run.catchWith, Run.errorLogged, Run.alerted,
          Run.rejects, Run.detach, Run.console, Run.commit, Run.alert, Run.emit, Run.reject,
          Run.ret, Run.eval, hfail, h1, h2, hm]
  · simp [addItemsToCollection, fetch_post, Run.andThen, Run.catchWith, Run.errorLogged,
        Run.alerted, Run.rejects, Run.detach, Run.console, Run.commit, Run.alert, Run.emit,
        Run.reject, Run.ret, Run.eval, hres, h1, h2, hs, hnot status _ hne]
  · simp [Propagates, getSupportedSchemasList, fetch_get, Run.andThen, Run.catchWith,
        Run.errorLogged, Run.alerted, Run.rejects, Run.detach, Run.console, Run.commit, Run.alert,
        Run.emit, Run.reject, Run.ret, Run.eval, hres, h1, h2, hp]
  · simp [Propagates, getSchema, fetch_get, Run.andThen, Run.catchWith, Run.errorLogged,
        Run.alerted, Run.rejects, Run.detach, Run.console, Run.commit, Run.alert, Run.emit,
        Run.reject, Run.ret, Run.eval, hres, h1, h2, hp]
  · simp [Propagates, updateItemPermissions, fetch_patch, Run.andThen, Run.catchWith,
        Run.errorLogged, Run.alerted, Run.rejects, Run.detach, Run.console, Run.commit, Run.alert,
        Run.emit, Run.reject, Run.ret, Run.eval, hres, h1, h2, hs, hm,
      JSVal.isString]
  · cases hmm : (newError message).prop "message" <;>
      simp [requestNewAPIKey, fetch_get, Run.andThen, Run.catchWith, Run.errorLogged, Run.alerted,
          Run.rejects, Run.detach, Run.console, Run.commit, Run.alert, Run.emit, Run.reject,
          Run.ret, Run.eval, hres, h1, h2, hk, hkt, hm, hmm]
  · simp [Swallows, saveUser, fetch_patch, Run.andThen, Run.catchWith, Run.errorLogged,
        Run.alerted, Run.rejects, Run.detach, Run.console, Run.commit, Run.alert, Run.emit,
        Run.reject, Run.ret, Run.eval, hres, h1, h2, hs, hnot status _ hne]
  · simp [Swallows, saveRole, fetch_patch, Run.andThen, Run.catchWith, Run.errorLogged,
        Run.alerted, Run.rejects, Run.detach, Run.console, Run.commit, Run.alert, Run.emit,
        Run.reject, Run.ret, Run.eval, hres, h1, h2, hs, hnot status _ hne]

/-- Claim C13, amended, at an unreachable server, where `getStats` logs and
re-throws and `deleteSample` alerts and does not pass the failure on, and at
a server that answers every request with status `"error"`, where
`addItemsToCollection` logs, alerts and rejects. -/
theorem failure_handling_witness :
    Propagates (getStats offlineEnv) (error "TypeError" "Failed to fetch") true false ∧
    Swallows (deleteSample offlineEnv (str "s1")) false true ∧
    ((addItemsToCollection (exampleEnv (.ok noAccessResponse)) (str "c1")
        (arr [str "r1"])).errorLogged = true ∧
      (addItemsToCollection (exampleEnv (.ok noAccessResponse)) (str "c1")
        (arr [str "r1"])).alerted = true ∧
      (addItemsToCollection (exampleEnv (.ok noAccessResponse)) (str "c1")
        (arr [str "r1"])).result
        = .error (newError (str "Failed to add items to collection."))) :=
  ⟨((failure_handling offlineEnv (str "s1") null null (str "c1") null null null null null null
      null null null null null null null null null null (arr [str "r1"]) null null null null
      null null null null null none [] [] []).1 (error "TypeError" "Failed to fetch")
      (fun _ _ => rfl)).1.1,
   ((failure_handling offlineEnv (str "s1") null null (str "c1") null null null null null null
      null null null null null null null null null null (arr [str "r1"]) null null null null
      null null null null null none [] [] []).1 (error "TypeError" "Failed to fetch")
      (fun _ _ => rfl)).2.2.1.1,
   ((failure_handling (exampleEnv (.ok noAccessResponse)) (str "s1") null null (str "c1") null
      null null null null null null null null null null null null null null null
      (arr [str "r1"]) null null null null null null null null null none [] [] []).2
      (obj [("status", str "error"), ("message", str "no access")]) (fun _ _ => rfl)).1
      (str "error") rfl (by simp)⟩
